import Mathlib

/-
Verification development for the 404-finder soft-404 classifier
(src/src/content/content.js, function checkIf404Page, lines 95-450).

Modelling conventions:
* JavaScript numbers are modelled as rationals.
* Regular-expression matching (pattern.test(text)) is modelled by an
  oracle given as a parameter, keyed by the pattern source string and the
  text; apostrophe-like characters inside pattern sources are written with
  the hexadecimal escape for the apostrophe.
* Strings follow the literals of the source; the DOM is abstracted into
  the Page structure below.
-/

namespace FourOhFour

/-- Boolean prefix test on character lists. -/
def prefixCheck : List Char → List Char → Bool
  | [], _ => true
  | _ :: _, [] => false
  | a :: as, b :: bs => a = b && prefixCheck as bs

/-- Boolean infix test on character lists. -/
def infixCheck : List Char → List Char → Bool
  | n, [] => n.isEmpty
  | n, c :: t => prefixCheck n (c :: t) || infixCheck n t

/-- Substring test, modelling JavaScript String.prototype.includes. -/
def includes (s sub : String) : Bool :=
  infixCheck sub.toList s.toList

/-- Whitespace splitting on character lists; the first argument is the
reversed current token. -/
def splitWsAux : List Char → List Char → List (List Char)
  | cur, [] => [cur.reverse]
  | cur, c :: cs =>
    if c.isWhitespace then cur.reverse :: splitWsAux [] cs
    else splitWsAux (c :: cur) cs

/-- Lowercasing a string character by character. -/
def toLowerStr (s : String) : String :=
  String.mk (s.toList.map Char.toLower)

/-- content.js line 106: tokens of the page content, whitespace split,
keeping only tokens of length greater than 2. -/
def words (pageContent : String) : List String :=
  ((splitWsAux [] pageContent.toList).map (fun l => String.mk l)).filter
    (fun w => 2 < w.length)

/-- content.js line 107: wordCount. -/
def wordCount (pageContent : String) : ℕ :=
  (words pageContent).length

/-- content.js line 108: number of distinct lowercased tokens. -/
def uniqueWords (pageContent : String) : ℕ :=
  ((words pageContent).map toLowerStr).dedup.length

/-- Characters ending a sentence, from the regex class [.!?]. -/
def isSentenceChar (c : Char) : Bool :=
  c = '.' || c = '!' || c = '?'

/-- Auxiliary run counter: counts maximal runs of sentence characters.
The Boolean argument records whether the previous character was one. -/
def countRunsAux : Bool → List Char → ℕ
  | _, [] => 0
  | prev, c :: cs =>
    (if isSentenceChar c && !prev then 1 else 0) + countRunsAux (isSentenceChar c) cs

/-- content.js line 109: sentenceCount, the number of maximal [.!?]+ runs. -/
def sentenceCount (pageContent : String) : ℕ :=
  countRunsAux false pageContent.toList

/-- content.js lines 112-136: the word-count bracket giving the base
content sparsity score, the sparsity multiplier and the pushed indicator. -/
def sparsityCore (wc : ℕ) : ℚ × ℚ × List String :=
  if wc < 20 then (35, 2, ["Extremely sparse content: " ++ toString wc ++ " words"])
  else if wc < 50 then (25, 3/2, ["Very sparse content: " ++ toString wc ++ " words"])
  else if wc < 100 then (15, 6/5, ["Sparse content: " ++ toString wc ++ " words"])
  else if wc < 200 then (5, 1, ["Limited content: " ++ toString wc ++ " words"])
  else if 500 < wc then (-20, 7/10, ["Page has substantial content"])
  else (0, 1, [])

/-- content.js lines 112-152: full sparsity analysis of the page content:
bracket score and multiplier, plus the two additive adjustments
(low vocabulary diversity, very short sentences).
Returns (contentSparsityScore, sparsityMultiplier, indicators pushed). -/
def contentSparsity (pageContent : String) : ℚ × ℚ × List String :=
  let wc := wordCount pageContent
  let uw := uniqueWords pageContent
  let sc := sentenceCount pageContent
  let base := sparsityCore wc
  let s0 := base.1
  let m := base.2.1
  let t0 := base.2.2
  let step1 : ℚ × List String :=
    if 10 < wc ∧ (uw : ℚ) / (max wc 1 : ℚ) < 1/2 then
      (s0 + 10, t0 ++ ["Low vocabulary diversity"])
    else (s0, t0)
  let step2 : ℚ × List String :=
    if 0 < wc ∧ 0 < sc ∧ (wc : ℚ) / (sc : ℚ) < 8 then
      (step1.1 + 10, step1.2 ++ ["Very short sentences"])
    else (step1.1, step1.2)
  (step2.1, m, step2.2)

/-- One pattern of the indicator catalogs: regex source, weight, context tag. -/
structure Indicator where
  src : String
  weight : ℚ
  ctx : String
  deriving DecidableEq, Repr

/-- One platform entry of the platform-specific table. -/
structure Platform where
  domain : String
  patterns : List Indicator
  deriving DecidableEq, Repr

/-- content.js lines 161-195: platform-specific soft 404 patterns. -/
def platformSpecific404s : List Platform :=
  [ { domain := "github.com",
      patterns :=
        [ { src := "Page\\s+not\\s+found", weight := 40, ctx := "title" },
          { src := "\"404\".*not.*the.*page.*you.*are.*looking.*for", weight := 50, ctx := "any" },
          { src := "This\\s+is\\s+not\\s+the\\s+(web\\s+)?page\\s+you.*looking\\s+for", weight := 40, ctx := "any" } ] },
    { domain := "facebook.com",
      patterns :=
        [ { src := "This\\s+content\\s+isn[\x27]?t\\s+available", weight := 40, ctx := "any" },
          { src := "it[\x27]?s\\s+been\\s+deleted", weight := 30, ctx := "any" },
          { src := "owner\\s+only\\s+shared\\s+it\\s+with\\s+a\\s+small\\s+group", weight := 25, ctx := "any" } ] },
    { domain := "twitter.com",
      patterns :=
        [ { src := "This\\s+account\\s+doesn\x27?t\\s+exist", weight := 50, ctx := "any" },
          { src := "Try\\s+searching\\s+for\\s+another", weight := 20, ctx := "any" } ] },
    { domain := "x.com",
      patterns :=
        [ { src := "This\\s+account\\s+doesn\x27?t\\s+exist", weight := 50, ctx := "any" },
          { src := "Try\\s+searching\\s+for\\s+another", weight := 20, ctx := "any" } ] } ]

/-- content.js lines 219-229: strong indicators. -/
def strongIndicators : List Indicator :=
  [ { src := "^404\\s*[-–—]?\\s*(error|not\\s+found|page\\s+not\\s+found)", weight := 40, ctx := "title" },
    { src := "^error\\s+404", weight := 40, ctx := "title" },
    { src := "Page\\s+not\\s+found", weight := 35, ctx := "title" },
    { src := "HTTP\\s+(ERROR\\s+)?404", weight := 35, ctx := "any" },
    { src := "404\\s+File\\s+or\\s+directory\\s+not\\s+found", weight := 35, ctx := "any" },
    { src := "The\\s+requested\\s+(URL|resource)\\s+.*\\s+was\\s+not\\s+found", weight := 30, ctx := "any" },
    { src := "\"404\".*not.*the.*page.*you.*are.*looking.*for", weight := 40, ctx := "any" },
    { src := "This\\s+is\\s+not\\s+the\\s+(web\\s+)?page\\s+you.*looking\\s+for", weight := 35, ctx := "any" } ]

/-- content.js lines 232-242: medium indicators. -/
def mediumIndicators : List Indicator :=
  [ { src := "page\\s+(you([\x27]re|\\s+are)\\s+looking\\s+for\\s+)?(cannot\\s+be\\s+found|doesn[\x27]?t\\s+exist)", weight := 20, ctx := "any" },
    { src := "sorry[,.]?\\s+(this|that)\\s+page\\s+(doesn[\x27]?t|does\\s+not)\\s+exist", weight := 20, ctx := "any" },
    { src := "we\\s+can[\x27]?t\\s+find\\s+(the\\s+page|what)\\s+you([\x27]?re)?\\s+looking\\s+for", weight := 20, ctx := "any" },
    { src := "this\\s+content\\s+isn[\x27]?t\\s+available", weight := 30, ctx := "any" },
    { src := "page\\s+has\\s+been\\s+(removed|deleted|moved)", weight := 15, ctx := "any" },
    { src := "This\\s+page\\s+isn[\x27]?t\\s+available", weight := 20, ctx := "any" },
    { src := "it[\x27]?s\\s+been\\s+deleted", weight := 25, ctx := "any" },
    { src := "owner\\s+only\\s+shared\\s+it\\s+with\\s+a\\s+small\\s+group", weight := 20, ctx := "any" } ]

/-- content.js lines 245-251: weak indicators. -/
def weakIndicators : List Indicator :=
  [ { src := "not\\s+found", weight := 5, ctx := "body" },
    { src := "doesn\x27?t\\s+exist", weight := 5, ctx := "body" },
    { src := "no\\s+longer\\s+available", weight := 5, ctx := "body" },
    { src := "broken\\s+link", weight := 5, ctx := "body" },
    { src := "dead\\s+link", weight := 5, ctx := "body" } ]

/-- One URL pattern of content.js lines 308-313. -/
structure UrlPattern where
  src : String
  weight : ℚ
  deriving DecidableEq, Repr

/-- content.js lines 308-313: URL patterns. -/
def urlPatterns : List UrlPattern :=
  [ { src := "\\/404(\\.html?)?$", weight := 30 },
    { src := "\\/error\\/404", weight := 30 },
    { src := "\\/not[-_]?found", weight := 20 },
    { src := "\\/page[-_]?not[-_]?found", weight := 25 } ]

/-- A bundle of additions to the mutable detectionResult of the source:
confidence added, strong and weak indicator count increments, trail entries. -/
structure Contribution where
  score : ℚ
  strong : ℕ
  weak : ℕ
  trail : List String
  deriving DecidableEq, Repr

/-- The empty contribution. -/
def Contribution.zero : Contribution := ⟨0, 0, 0, []⟩

/-- Combining two contributions, in order. -/
def Contribution.comb (a b : Contribution) : Contribution :=
  ⟨a.score + b.score, a.strong + b.strong, a.weak + b.weak, a.trail ++ b.trail⟩

/-- Combining a list of contributions, in order. -/
def joinC (l : List Contribution) : Contribution :=
  l.foldr Contribution.comb Contribution.zero

/-- The abstracted page snapshot read by checkIf404Page: title and body
as JavaScript optionals, hostname, href, h1 texts, the two meta tags,
images as (src, alt) pairs, and link and form element counts. -/
structure Page where
  title? : Option String
  body? : Option String
  domain : String
  url : String
  h1s : List String
  metaPrerender : Option String
  metaHttpStatus : Option String
  images : List (String × String)
  linksCount : ℕ
  formsCount : ℕ

/-- content.js lines 105 and 158: document.body?.textContent or the empty string. -/
def bodyTextOf (p : Page) : String := p.body?.getD ""

/-- content.js line 157: document.title or the empty string. -/
def titleTextOf (p : Page) : String := p.title?.getD ""

/-- content.js line 198: the lowercased hostname. -/
def domainOf (p : Page) : String := toLowerStr p.domain

/-- content.js line 307: the lowercased href. -/
def urlLowerOf (p : Page) : String := toLowerStr p.url

/-- content.js lines 199-216, one pattern of one matching platform:
title context match adds weight times multiplier and one strong indicator;
body match (context any) adds weight times 0.5 times multiplier. -/
def platformPatternContr (test : String → String → Bool) (titleText bodyText : String)
    (m : ℚ) (pdom : String) (ind : Indicator) : Contribution :=
  Contribution.comb
    (if (ind.ctx = "title" ∨ ind.ctx = "any") ∧ test ind.src titleText = true then
      ⟨ind.weight * m, 1, 0, ["Platform-specific (" ++ pdom ++ "): " ++ ind.src]⟩
     else Contribution.zero)
    (if ind.ctx = "any" ∧ test ind.src bodyText = true then
      ⟨ind.weight * (1/2) * m, 0, 0, ["Platform-specific body (" ++ pdom ++ "): " ++ ind.src]⟩
     else Contribution.zero)

/-- content.js lines 199-216: the platform-specific pass. -/
def platformStep (test : String → String → Bool) (dom titleText bodyText : String)
    (m : ℚ) : Contribution :=
  joinC (platformSpecific404s.map (fun pl =>
    if includes dom pl.domain = true then
      joinC (pl.patterns.map (platformPatternContr test titleText bodyText m pl.domain))
    else Contribution.zero))

/-- content.js lines 254-260: strong indicators against the title. -/
def titleStrongStep (test : String → String → Bool) (titleText : String) (m : ℚ) : Contribution :=
  joinC (strongIndicators.map (fun ind =>
    if (ind.ctx = "title" ∨ ind.ctx = "any") ∧ test ind.src titleText = true then
      ⟨ind.weight * m, 1, 0, ["Title matches: " ++ ind.src]⟩
    else Contribution.zero))

/-- content.js lines 263-268: medium indicators against the title. -/
def titleMediumStep (test : String → String → Bool) (titleText : String) (m : ℚ) : Contribution :=
  joinC (mediumIndicators.map (fun ind =>
    if (ind.ctx = "title" ∨ ind.ctx = "any") ∧ test ind.src titleText = true then
      ⟨ind.weight * m, 0, 0, ["Title matches (medium): " ++ ind.src]⟩
    else Contribution.zero))

/-- content.js lines 271-288, one h1 element: strong then medium catalog,
context any, at weight times 0.8 times multiplier. -/
def h1OneStep (test : String → String → Bool) (h1Text : String) (m : ℚ) : Contribution :=
  joinC
    ((strongIndicators.map (fun ind =>
        if ind.ctx = "any" ∧ test ind.src h1Text = true then
          ⟨ind.weight * (4/5) * m, 1, 0, ["H1 matches: " ++ ind.src]⟩
        else Contribution.zero)) ++
     (mediumIndicators.map (fun ind =>
        if ind.ctx = "any" ∧ test ind.src h1Text = true then
          ⟨ind.weight * (4/5) * m, 0, 0, ["H1 matches: " ++ ind.src]⟩
        else Contribution.zero)))

/-- content.js lines 271-288: every h1 element in order. -/
def h1Step (test : String → String → Bool) (h1s : List String) (m : ℚ) : Contribution :=
  joinC (h1s.map (fun h => h1OneStep test h m))

/-- content.js lines 291-304: the two meta tag checks, +50 each, strong. -/
def metaStep (mp mh : Option String) : Contribution :=
  Contribution.comb
    (if mp = some "404" then ⟨50, 1, 0, ["Meta prerender-status-code is 404"]⟩
     else Contribution.zero)
    (if mh = some "404" then ⟨50, 1, 0, ["Meta http-equiv status is 404"]⟩
     else Contribution.zero)

/-- content.js lines 315-320: URL patterns against the lowercased href. -/
def urlStep (test : String → String → Bool) (urlLower : String) : Contribution :=
  joinC (urlPatterns.map (fun up =>
    if test up.src urlLower = true then
      ⟨up.weight, 0, 0, ["URL matches: " ++ up.src]⟩
    else Contribution.zero))

/-- content.js lines 322-330: number of weak indicators matching the body. -/
def weakCount (test : String → String → Bool) (bodyText : String) : ℕ :=
  (weakIndicators.filter (fun ind => test ind.src bodyText)).length

/-- content.js lines 322-336: the weak-indicator pass; confidence is added
only when three or more distinct weak indicators match. -/
def weakStep (test : String → String → Bool) (bodyText : String) : Contribution :=
  let k := weakCount test bodyText
  if 3 ≤ k then ⟨(k : ℚ) * 3, 0, k, ["Multiple weak indicators found: " ++ toString k]⟩
  else ⟨0, 0, k, []⟩

/-- content.js lines 341-347: the length-dependent body weight fraction. -/
def bodyWeightFor (wc : ℕ) : ℚ :=
  if wc < 100 then 3/5 else if wc < 200 then 2/5 else 3/10

/-- content.js lines 339-351: strong and medium catalogs against the body. -/
def bodyStep (test : String → String → Bool) (bodyText : String) (wc : ℕ) (m : ℚ) : Contribution :=
  joinC ((strongIndicators ++ mediumIndicators).map (fun ind =>
    if ind.ctx = "any" ∧ test ind.src bodyText = true then
      ⟨ind.weight * bodyWeightFor wc * m, 0, 0, ["Body matches: " ++ ind.src]⟩
    else Contribution.zero))

/-- content.js lines 359-360: known sites with complex navigation. -/
def isKnownSiteCalc (dom : String) : Bool :=
  ["github.com", "facebook.com", "twitter.com", "x.com"].any (fun d => includes dom d)

/-- content.js lines 363-370: the page-structure analysis. -/
def structureStep (known : Bool) (wc ni nl nf : ℕ) : Contribution :=
  if known = false ∧ ni ≤ 2 ∧ nl ≤ 10 ∧ nf = 0 then ⟨10, 0, 0, ["Minimal page structure"]⟩
  else if known = true ∧ wc < 100 then ⟨5, 0, 0, ["Known site with sparse content"]⟩
  else Contribution.zero

/-- content.js lines 373-376: some image whose src or alt contains 404. -/
def has404ImageCalc (images : List (String × String)) : Bool :=
  images.any (fun im => includes (toLowerStr im.1) "404" || includes (toLowerStr im.2) "404")

/-- content.js lines 378-381: the 404-image bonus. -/
def imageStep (h : Bool) : Contribution :=
  if h = true then ⟨20, 0, 0, ["404 image found"]⟩ else Contribution.zero

/-- The sparsity multiplier of the page. -/
def multiplierOf (p : Page) : ℚ := (contentSparsity (bodyTextOf p)).2.1

/-- All scoring passes after the sparsity block, in source order. -/
def stepsOf (test : String → String → Bool) (p : Page) : List Contribution :=
  [ platformStep test (domainOf p) (titleTextOf p) (bodyTextOf p) (multiplierOf p),
    titleStrongStep test (titleTextOf p) (multiplierOf p),
    titleMediumStep test (titleTextOf p) (multiplierOf p),
    h1Step test p.h1s (multiplierOf p),
    metaStep p.metaPrerender p.metaHttpStatus,
    urlStep test (urlLowerOf p),
    weakStep test (bodyTextOf p),
    bodyStep test (bodyTextOf p) (wordCount (bodyTextOf p)) (multiplierOf p),
    structureStep (isKnownSiteCalc (domainOf p)) (wordCount (bodyTextOf p))
      p.images.length p.linksCount p.formsCount,
    imageStep (has404ImageCalc p.images) ]

/-- The combined contributions of all passes after the sparsity block. -/
def totalOf (test : String → String → Bool) (p : Page) : Contribution :=
  joinC (stepsOf test p)

/-- content.js line 154 plus all later additions: the final confidence. -/
def confidenceOf (test : String → String → Bool) (p : Page) : ℚ :=
  (contentSparsity (bodyTextOf p)).1 + (totalOf test p).score

/-- The final indicator trail, in push order. -/
def indicatorsOf (test : String → String → Bool) (p : Page) : List String :=
  (contentSparsity (bodyTextOf p)).2.2 ++ (totalOf test p).trail

/-- content.js lines 383-399: dynamic confidence threshold and
strong-indicator requirement from the word count. -/
def thresholds (wc : ℕ) : ℚ × ℕ :=
  if wc < 20 then (45, 0)
  else if wc < 50 then (50, 0)
  else if wc < 100 then (55, 1)
  else if wc < 200 then (58, 1)
  else (60, 1)

/-- content.js line 402: explicit 404 token in body or title. -/
def hasExplicit404 (p : Page) : Bool :=
  includes (bodyTextOf p) "404" || includes (titleTextOf p) "404"

/-- content.js lines 406-419: the platform-detected flag, recovered by
scanning the indicator trail for platform-specific entries of a platform
whose domain matches. -/
def platformDetectedCalc (dom : String) (inds : List String) : Bool :=
  platformSpecific404s.any (fun pl =>
    includes dom pl.domain &&
      inds.any (fun ind =>
        includes ind ("Platform-specific (" ++ pl.domain ++ ")") ||
        includes ind ("Platform-specific body (" ++ pl.domain ++ ")")))

/-- content.js lines 421-447: the final decision chain. -/
def decisionLogic (conf th : ℚ) (req : ℕ) (explicit404 platformDetected isFb : Bool)
    (wc trailLen strong : ℕ) : Bool :=
  if 80 ≤ conf then true
  else if explicit404 = true ∧ 40 ≤ conf then true
  else if platformDetected = true then
    (if isFb = true ∧ 35 ≤ conf then true
     else if 45 ≤ conf then true
     else false)
  else if wc < 100 ∧ th ≤ conf then true
  else if 3 ≤ trailLen ∧ th - 5 ≤ conf then true
  else decide (th ≤ conf ∧ req ≤ strong)

/-- The result record the source accumulates (content.js lines 96-102). -/
structure DetectionResult where
  is404 : Bool
  confidence : ℚ
  indicators : List String
  strongIndicators : ℕ
  weakIndicators : ℕ
  deriving DecidableEq, Repr

/-- content.js lines 95-449: the full detection record built by checkIf404Page. -/
def detection (test : String → String → Bool) (p : Page) : DetectionResult :=
  { is404 :=
      decisionLogic (confidenceOf test p)
        (thresholds (wordCount (bodyTextOf p))).1
        (thresholds (wordCount (bodyTextOf p))).2
        (hasExplicit404 p)
        (platformDetectedCalc (domainOf p) (indicatorsOf test p))
        (includes (domainOf p) "facebook.com")
        (wordCount (bodyTextOf p))
        ((indicatorsOf test p).length)
        ((totalOf test p).strong)
    confidence := confidenceOf test p
    indicators := indicatorsOf test p
    strongIndicators := (totalOf test p).strong
    weakIndicators := (totalOf test p).weak }

/-- content.js line 449: the value checkIf404Page actually returns to its
caller, the bare boolean field of the record. -/
def checkIf404Page (test : String → String → Bool) (p : Page) : Bool :=
  (detection test p).is404

/-- Modelled from the words of claim C1: threshold and requirement from the
wordCount bracket, then the six decision rules applied in order with the
first satisfied rule winning (rule 3 split into its two sub-cases). -/
def decideSpecC1 (conf : ℚ) (wc : ℕ) (explicit404 platformFired isFb : Bool)
    (trailLen strong : ℕ) : Bool :=
  if 80 ≤ conf then true
  else if explicit404 = true ∧ 40 ≤ conf then true
  else if platformFired = true ∧ isFb = true ∧ 35 ≤ conf then true
  else if platformFired = true ∧ 45 ≤ conf then true
  else if wc < 100 ∧ (if wc < 20 then (45 : ℚ) else if wc < 50 then 50
    else if wc < 100 then 55 else if wc < 200 then 58 else 60) ≤ conf then true
  else if 3 ≤ trailLen ∧ (if wc < 20 then (45 : ℚ) else if wc < 50 then 50
    else if wc < 100 then 55 else if wc < 200 then 58 else 60) - 5 ≤ conf then true
  else decide ((if wc < 20 then (45 : ℚ) else if wc < 50 then 50
    else if wc < 100 then 55 else if wc < 200 then 58 else 60) ≤ conf ∧
    (if wc < 20 then 0 else if wc < 50 then 0 else 1) ≤ strong)

/-- Modelled from the words of claim C3: the sum of the contributions of
scoring steps 1 to 6 plus the sparsity score, with no further term. -/
def specClaimedConfidence (test : String → String → Bool) (p : Page) : ℚ :=
  (contentSparsity (bodyTextOf p)).1 +
  ((platformStep test (domainOf p) (titleTextOf p) (bodyTextOf p) (multiplierOf p)).score +
   (titleStrongStep test (titleTextOf p) (multiplierOf p)).score +
   (titleMediumStep test (titleTextOf p) (multiplierOf p)).score +
   (h1Step test p.h1s (multiplierOf p)).score +
   (metaStep p.metaPrerender p.metaHttpStatus).score +
   (urlStep test (urlLowerOf p)).score +
   (weakStep test (bodyTextOf p)).score +
   (bodyStep test (bodyTextOf p) (wordCount (bodyTextOf p)) (multiplierOf p)).score)

/-- The sources of the weak catalog. -/
def weakSrcs : List String := weakIndicators.map (fun i => i.src)

/-- The oracle with every weak-catalog pattern forced to not match. -/
def maskWeak (test : String → String → Bool) : String → String → Bool :=
  fun src t => if weakSrcs.contains src then false else test src t

/-- Whether a trail entry is one of the platform-specific markers the
decision stage scans for (content.js lines 410-413). -/
def isPlatformMarker (s : String) : Bool :=
  platformSpecific404s.any (fun pl =>
    includes s ("Platform-specific (" ++ pl.domain ++ ")") ||
    includes s ("Platform-specific body (" ++ pl.domain ++ ")"))

/-- The oracle on which no pattern matches anything. -/
def test0 : String → String → Bool := fun _ _ => false

/-- A page with every signal absent: no title, no body, nothing else. -/
def page0 : Page :=
  { title? := none, body? := none, domain := "example.com",
    url := "https://example.com/x", h1s := [], metaPrerender := none,
    metaHttpStatus := none, images := [], linksCount := 0, formsCount := 0 }

/-- The three weak-catalog sources exercised by scenario E. -/
def weakSrcsE : List String :=
  ["not\\s+found", "doesn\x27?t\\s+exist", "broken\\s+link"]

/-- The scenario E oracle: exactly the three weak patterns match. -/
def testE : String → String → Bool := fun src _ => weakSrcsE.contains src

/-- The scenario E body: 40 tokens over a small vocabulary repeating the
phrases not found, doesn\x27t exist and broken link, in short sentences. -/
def bodyE : String :=
  "the page was not found. this thing doesn\x27t exist now. there was one broken link. " ++
  "the page was not found. this thing doesn\x27t exist now. there was one broken link. " ++
  "the page was not found. this thing doesn\x27t exist now."

/-- The scenario E page: a 40-word sparse page on an unknown domain with
non-minimal structure and no further signals. -/
def pageE : Page :=
  { title? := some "Sample Page", body? := some bodyE, domain := "example.com",
    url := "https://example.com/sample", h1s := [], metaPrerender := none,
    metaHttpStatus := none,
    images := [("https://example.com/a.png", "logo"),
               ("https://example.com/b.png", "pic"),
               ("https://example.com/c.png", "art")],
    linksCount := 12, formsCount := 1 }

/-- A lowercase letter for each decimal digit. -/
def tokChar (d : ℕ) : Char :=
  if d = 0 then 'a' else if d = 1 then 'b' else if d = 2 then 'c'
  else if d = 3 then 'd' else if d = 4 then 'e' else if d = 5 then 'f'
  else if d = 6 then 'g' else if d = 7 then 'h' else if d = 8 then 'i' else 'j'

/-- The n-th filler token: the letter q followed by the three digits of n
written as letters; four lowercase letters, distinct for n below 1000. -/
def tok (n : ℕ) : String :=
  String.mk ['q', tokChar (n / 100 % 10), tokChar (n / 10 % 10), tokChar (n % 10)]

/-- The first n filler tokens. -/
def tokens (n : ℕ) : List String := (List.range n).map tok

/-- Joining tokens with single spaces. -/
def joinTokens : List String → String
  | [] => ""
  | [a] => a
  | a :: b :: r => a ++ " " ++ joinTokens (b :: r)

/-- A body of 501 distinct words: more than 500 words, all-distinct
vocabulary, no sentence punctuation. -/
def bodyT : String := joinTokens (tokens 501)

/-- The substantial-content page matching no signal at all. -/
def pageT : Page :=
  { title? := some "Big Page", body? := some bodyT, domain := "example.com",
    url := "https://example.com/big", h1s := [], metaPrerender := none,
    metaHttpStatus := none, images := [], linksCount := 20, formsCount := 0 }

/-- A body of exactly 100 distinct words. -/
def body100 : String := joinTokens (tokens 100)

/-- A signal-free page with exactly 100 words of body text. -/
def page100 : Page :=
  { title? := some "Plain Page", body? := some body100, domain := "example.com",
    url := "https://example.com/plain", h1s := [], metaPrerender := none,
    metaHttpStatus := none, images := [], linksCount := 0, formsCount := 0 }

/-- The oracle of the C7 witness: the error-404 strong title pattern
matches the title Error 404 and nothing else. -/
def testW : String → String → Bool :=
  fun src t => src = "^error\\s+404" && t = "Error 404"

/-- The base page of the C7 witness. -/
def pageW : Page :=
  { title? := some "", body? := some "some plain page content here",
    domain := "example.com", url := "https://example.com/w", h1s := [],
    metaPrerender := none, metaHttpStatus := none, images := [],
    linksCount := 0, formsCount := 0 }

theorem joinC_nil : joinC [] = Contribution.zero := rfl

theorem joinC_cons (c : Contribution) (l : List Contribution) :
    joinC (c :: l) = Contribution.comb c (joinC l) := rfl

theorem comb_score (a b : Contribution) :
    (Contribution.comb a b).score = a.score + b.score := rfl

theorem comb_trail (a b : Contribution) :
    (Contribution.comb a b).trail = a.trail ++ b.trail := rfl

theorem zero_score : Contribution.zero.score = 0 := rfl

theorem zero_trail : Contribution.zero.trail = [] := rfl

/-- C4: checkIf404Page hands its caller only the boolean field of the
detection record it builds; confidence and indicators are discarded. -/
theorem claim_C4 (test : String → String → Bool) (p : Page) :
    checkIf404Page test p = (detection test p).is404 := rfl

/-- C9: the classifier is a pure function of the oracle and the snapshot;
two evaluations on equal snapshots return equal records. -/
theorem claim_C9 (test : String → String → Bool) (p q : Page) (h : p = q) :
    detection test p = detection test q := by rw [h]

theorem claim_C9_witness : detection test0 page0 = detection test0 page0 :=
  claim_C9 test0 page0 page0 rfl

/-- C2: the sparsity bracket is a pure function of the whitespace-split
length-over-2 token count of bodyText; the brackets are mutually exclusive,
first match winning low to high, with the stated scores and multipliers,
and the multiplier of the full analysis is the bracket multiplier. -/
theorem claim_C2 (bodyText : String) :
    (contentSparsity bodyText).2.1 = (sparsityCore (wordCount bodyText)).2.1 ∧
    (wordCount bodyText < 20 →
      (sparsityCore (wordCount bodyText)).1 = 35 ∧
      (sparsityCore (wordCount bodyText)).2.1 = 2) ∧
    (20 ≤ wordCount bodyText → wordCount bodyText < 50 →
      (sparsityCore (wordCount bodyText)).1 = 25 ∧
      (sparsityCore (wordCount bodyText)).2.1 = 3/2) ∧
    (50 ≤ wordCount bodyText → wordCount bodyText < 100 →
      (sparsityCore (wordCount bodyText)).1 = 15 ∧
      (sparsityCore (wordCount bodyText)).2.1 = 6/5) ∧
    (100 ≤ wordCount bodyText → wordCount bodyText < 200 →
      (sparsityCore (wordCount bodyText)).1 = 5 ∧
      (sparsityCore (wordCount bodyText)).2.1 = 1) ∧
    (500 < wordCount bodyText →
      (sparsityCore (wordCount bodyText)).1 = -20 ∧
      (sparsityCore (wordCount bodyText)).2.1 = 7/10) ∧
    (200 ≤ wordCount bodyText → wordCount bodyText ≤ 500 →
      (sparsityCore (wordCount bodyText)).1 = 0 ∧
      (sparsityCore (wordCount bodyText)).2.1 = 1) := by
  refine ⟨rfl, ?_, ?_, ?_, ?_, ?_, ?_⟩
  · intro h
    unfold sparsityCore
    rw [if_pos h]
    exact ⟨rfl, rfl⟩
  · intro h1 h2
    unfold sparsityCore
    rw [if_neg (by omega), if_pos h2]
    exact ⟨rfl, rfl⟩
  · intro h1 h2
    unfold sparsityCore
    rw [if_neg (by omega), if_neg (by omega), if_pos h2]
    exact ⟨rfl, rfl⟩
  · intro h1 h2
    unfold sparsityCore
    rw [if_neg (by omega), if_neg (by omega), if_neg (by omega), if_pos h2]
    exact ⟨rfl, rfl⟩
  · intro h
    unfold sparsityCore
    rw [if_neg (by omega), if_neg (by omega), if_neg (by omega), if_neg (by omega),
      if_pos h]
    exact ⟨rfl, rfl⟩
  · intro h1 h2
    unfold sparsityCore
    rw [if_neg (by omega), if_neg (by omega), if_neg (by omega), if_neg (by omega),
      if_neg (by omega)]
    exact ⟨rfl, rfl⟩

theorem claim_C2_witness :
    wordCount "" < 20 ∧
    (sparsityCore (wordCount "")).1 = 35 ∧ (sparsityCore (wordCount "")).2.1 = 2 :=
  ⟨by decide, (claim_C2 "").2.1 (by decide)⟩

/-- C3 (amended): the final confidence is the sum of the contributions of
steps 1 to 6 plus the sparsity score plus the page-structure bonus plus
the 404-image bonus. -/
theorem claim_C3 (test : String → String → Bool) (p : Page) :
    (detection test p).confidence =
      specClaimedConfidence test p +
      (structureStep (isKnownSiteCalc (domainOf p)) (wordCount (bodyTextOf p))
        p.images.length p.linksCount p.formsCount).score +
      (imageStep (has404ImageCalc p.images)).score := by
  show confidenceOf test p = _
  unfold confidenceOf specClaimedConfidence totalOf stepsOf
  simp only [joinC_cons, joinC_nil, comb_score, zero_score]
  ring

set_option maxRecDepth 100000 in
theorem claim_C3_cex :
    ¬ (detection test0 page0).confidence = specClaimedConfidence test0 page0 := by
  have h1 : (detection test0 page0).confidence = 45 := by with_unfolding_all rfl
  have h2 : specClaimedConfidence test0 page0 = 35 := by with_unfolding_all rfl
  rw [h1, h2]
  norm_num

set_option maxRecDepth 100000 in
theorem claim_C8_cex :
    checkIf404Page test0 page0 = true ∧ (detection test0 page0).confidence = 45 := by
  constructor
  · with_unfolding_all rfl
  · with_unfolding_all rfl

set_option maxRecDepth 400000 in
/-- C6: on the scenario E page, whose 40-word body repeats the three weak
phrases with no other signal, the classifier returns true; the confidence
is 54, the sparsity contributions 45 plus the weak-indicator bonus 9. -/
theorem claim_C6 :
    checkIf404Page testE pageE = true ∧ (detection testE pageE).confidence = 54 := by
  constructor
  · with_unfolding_all rfl
  · with_unfolding_all rfl

theorem platformStep_congr (t1 t2 : String → String → Bool) (dom tt bt : String) (m : ℚ)
    (h : ∀ pl ∈ platformSpecific404s, ∀ ind ∈ pl.patterns, ∀ s, t1 ind.src s = t2 ind.src s) :
    platformStep t1 dom tt bt m = platformStep t2 dom tt bt m := by
  unfold platformStep
  congr 1
  refine List.map_congr_left ?_
  intro pl hpl
  split
  · congr 1
    refine List.map_congr_left ?_
    intro ind hind
    unfold platformPatternContr
    simp only [h pl hpl ind hind]
  · rfl

theorem titleStrongStep_congr (t1 t2 : String → String → Bool) (tt : String) (m : ℚ)
    (h : ∀ ind ∈ strongIndicators, ∀ s, t1 ind.src s = t2 ind.src s) :
    titleStrongStep t1 tt m = titleStrongStep t2 tt m := by
  unfold titleStrongStep
  congr 1
  refine List.map_congr_left ?_
  intro ind hind
  simp only [h ind hind]

theorem titleMediumStep_congr (t1 t2 : String → String → Bool) (tt : String) (m : ℚ)
    (h : ∀ ind ∈ mediumIndicators, ∀ s, t1 ind.src s = t2 ind.src s) :
    titleMediumStep t1 tt m = titleMediumStep t2 tt m := by
  unfold titleMediumStep
  congr 1
  refine List.map_congr_left ?_
  intro ind hind
  simp only [h ind hind]

theorem h1Step_congr (t1 t2 : String → String → Bool) (h1s : List String) (m : ℚ)
    (hs : ∀ ind ∈ strongIndicators, ∀ s, t1 ind.src s = t2 ind.src s)
    (hm : ∀ ind ∈ mediumIndicators, ∀ s, t1 ind.src s = t2 ind.src s) :
    h1Step t1 h1s m = h1Step t2 h1s m := by
  unfold h1Step
  congr 1
  refine List.map_congr_left ?_
  intro htext _
  unfold h1OneStep
  congr 1
  congr 1
  · refine List.map_congr_left ?_
    intro ind hind
    simp only [hs ind hind]
  · refine List.map_congr_left ?_
    intro ind hind
    simp only [hm ind hind]

theorem urlStep_congr (t1 t2 : String → String → Bool) (u : String)
    (h : ∀ up ∈ urlPatterns, ∀ s, t1 up.src s = t2 up.src s) :
    urlStep t1 u = urlStep t2 u := by
  unfold urlStep
  congr 1
  refine List.map_congr_left ?_
  intro up hup
  simp only [h up hup]

theorem bodyStep_congr (t1 t2 : String → String → Bool) (bt : String) (wc : ℕ) (m : ℚ)
    (h : ∀ ind ∈ strongIndicators ++ mediumIndicators, ∀ s, t1 ind.src s = t2 ind.src s) :
    bodyStep t1 bt wc m = bodyStep t2 bt wc m := by
  unfold bodyStep
  congr 1
  refine List.map_congr_left ?_
  intro ind hind
  simp only [h ind hind]

theorem maskWeak_agrees (test : String → String → Bool) (src : String)
    (h : weakSrcs.contains src = false) (s : String) :
    maskWeak test src s = test src s := by
  unfold maskWeak
  rw [h]
  rfl

theorem maskWeak_platform_srcs :
    ∀ pl ∈ platformSpecific404s, ∀ ind ∈ pl.patterns,
      weakSrcs.contains ind.src = false := by decide

theorem maskWeak_strong_srcs :
    ∀ ind ∈ strongIndicators, weakSrcs.contains ind.src = false := by decide

theorem maskWeak_medium_srcs :
    ∀ ind ∈ mediumIndicators, weakSrcs.contains ind.src = false := by decide

theorem maskWeak_url_srcs :
    ∀ up ∈ urlPatterns, weakSrcs.contains up.src = false := by decide

theorem weak_srcs_mem :
    ∀ ind ∈ weakIndicators, weakSrcs.contains ind.src = true := by decide

theorem weakCount_maskWeak (test : String → String → Bool) (bt : String) :
    weakCount (maskWeak test) bt = 0 := by
  unfold weakCount
  rw [List.filter_eq_nil_iff.mpr ?_]
  · rfl
  · intro ind hind
    unfold maskWeak
    rw [weak_srcs_mem ind hind]
    simp

theorem weakStep_score (test : String → String → Bool) (bt : String) :
    (weakStep test bt).score =
      if 3 ≤ weakCount test bt then (weakCount test bt : ℚ) * 3 else 0 := by
  unfold weakStep
  dsimp only
  split
  · rfl
  · rfl

/-- C5: relative to the same evaluation with the weak catalog masked off,
the weak catalog contributes 0 to confidence when fewer than 3 distinct
weak indicators match, and exactly k times 3 when k of them match, 3 ≤ k. -/
theorem claim_C5 (test : String → String → Bool) (p : Page) :
    (detection test p).confidence =
      (detection (maskWeak test) p).confidence +
      (if 3 ≤ weakCount test (bodyTextOf p)
        then (weakCount test (bodyTextOf p) : ℚ) * 3 else 0) := by
  show confidenceOf test p = confidenceOf (maskWeak test) p + _
  unfold confidenceOf totalOf stepsOf
  rw [platformStep_congr (maskWeak test) test _ _ _ _
      (fun pl hpl ind hind s =>
        maskWeak_agrees test ind.src (maskWeak_platform_srcs pl hpl ind hind) s),
    titleStrongStep_congr (maskWeak test) test _ _
      (fun ind hind s => maskWeak_agrees test ind.src (maskWeak_strong_srcs ind hind) s),
    titleMediumStep_congr (maskWeak test) test _ _
      (fun ind hind s => maskWeak_agrees test ind.src (maskWeak_medium_srcs ind hind) s),
    h1Step_congr (maskWeak test) test _ _
      (fun ind hind s => maskWeak_agrees test ind.src (maskWeak_strong_srcs ind hind) s)
      (fun ind hind s => maskWeak_agrees test ind.src (maskWeak_medium_srcs ind hind) s),
    urlStep_congr (maskWeak test) test _
      (fun up hup s => maskWeak_agrees test up.src (maskWeak_url_srcs up hup) s),
    bodyStep_congr (maskWeak test) test _ _ _
      (fun ind hind s => maskWeak_agrees test ind.src ?_ s)]
  · simp only [joinC_cons, joinC_nil, comb_score, zero_score]
    rw [weakStep_score, weakStep_score, weakCount_maskWeak]
    norm_num
    ring
  · rcases List.mem_append.mp hind with h | h
    · exact maskWeak_strong_srcs ind h
    · exact maskWeak_medium_srcs ind h

theorem joinC_map_score_le {α : Type} (l : List α) (f g : α → Contribution)
    (h : ∀ a ∈ l, (f a).score ≤ (g a).score) :
    (joinC (l.map f)).score ≤ (joinC (l.map g)).score := by
  induction l with
  | nil => exact le_refl _
  | cons a l ih =>
    simp only [List.map_cons, joinC_cons, comb_score]
    exact add_le_add (h a (by simp)) (ih (fun x hx => h x (by simp [hx])))

theorem ite_score_le (c1 c2 : Prop) [Decidable c1] [Decidable c2] (v : Contribution)
    (himp : c1 → c2) (hv : 0 ≤ v.score) :
    (if c1 then v else Contribution.zero).score ≤
    (if c2 then v else Contribution.zero).score := by
  by_cases h : c1
  · rw [if_pos h, if_pos (himp h)]
  · rw [if_neg h]
    by_cases h2 : c2
    · rw [if_pos h2]
      exact hv
    · rw [if_neg h2]

theorem strong_weights_nonneg : ∀ ind ∈ strongIndicators, 0 ≤ ind.weight := by decide

theorem medium_weights_nonneg : ∀ ind ∈ mediumIndicators, 0 ≤ ind.weight := by decide

theorem platform_weights_nonneg :
    ∀ pl ∈ platformSpecific404s, ∀ ind ∈ pl.patterns, 0 ≤ ind.weight := by decide

theorem multiplier_pos (wc : ℕ) : 0 < (sparsityCore wc).2.1 := by
  unfold sparsityCore
  split_ifs <;> norm_num

theorem multiplierOf_eq (p : Page) :
    multiplierOf p = (sparsityCore (wordCount (bodyTextOf p))).2.1 := rfl

theorem multiplierOf_nonneg (p : Page) : 0 ≤ multiplierOf p :=
  le_of_lt (multiplier_pos (wordCount (bodyTextOf p)))

theorem titleStrongStep_mono (test : String → String → Bool) (tt1 tt2 : String) (m : ℚ)
    (hm : 0 ≤ m) (h : ∀ src, test src tt1 = true → test src tt2 = true) :
    (titleStrongStep test tt1 m).score ≤ (titleStrongStep test tt2 m).score := by
  unfold titleStrongStep
  apply joinC_map_score_le
  intro ind hind
  apply ite_score_le
  · rintro ⟨hc, ht⟩
    exact ⟨hc, h ind.src ht⟩
  · exact mul_nonneg (strong_weights_nonneg ind hind) hm

theorem titleMediumStep_mono (test : String → String → Bool) (tt1 tt2 : String) (m : ℚ)
    (hm : 0 ≤ m) (h : ∀ src, test src tt1 = true → test src tt2 = true) :
    (titleMediumStep test tt1 m).score ≤ (titleMediumStep test tt2 m).score := by
  unfold titleMediumStep
  apply joinC_map_score_le
  intro ind hind
  apply ite_score_le
  · rintro ⟨hc, ht⟩
    exact ⟨hc, h ind.src ht⟩
  · exact mul_nonneg (medium_weights_nonneg ind hind) hm

theorem platformStep_mono (test : String → String → Bool) (dom tt1 tt2 bt : String)
    (m : ℚ) (hm : 0 ≤ m) (h : ∀ src, test src tt1 = true → test src tt2 = true) :
    (platformStep test dom tt1 bt m).score ≤ (platformStep test dom tt2 bt m).score := by
  unfold platformStep
  apply joinC_map_score_le
  intro pl hpl
  by_cases hd : includes dom pl.domain = true
  · rw [if_pos hd, if_pos hd]
    apply joinC_map_score_le
    intro ind hind
    unfold platformPatternContr
    rw [comb_score, comb_score]
    apply add_le_add
    · apply ite_score_le
      · rintro ⟨hc, ht⟩
        exact ⟨hc, h ind.src ht⟩
      · exact mul_nonneg (platform_weights_nonneg pl hpl ind hind) hm
    · exact le_refl _
  · rw [if_neg hd, if_neg hd]

/-- C7: holding everything but the title fixed, a title matching every
pattern the old title matched plus at least one further strong-catalog
pattern never yields a lower accumulated confidence. -/
theorem claim_C7 (test : String → String → Bool) (p : Page) (t1 t2 : Option String)
    (hmono : ∀ src, test src (t1.getD "") = true → test src (t2.getD "") = true)
    (hextra : ∃ ind ∈ strongIndicators,
      test ind.src (t2.getD "") = true ∧ test ind.src (t1.getD "") = false) :
    (detection test { p with title? := t1 }).confidence ≤
    (detection test { p with title? := t2 }).confidence := by
  clear hextra
  show confidenceOf test _ ≤ confidenceOf test _
  unfold confidenceOf totalOf stepsOf
  dsimp only [bodyTextOf, titleTextOf, domainOf, urlLowerOf, multiplierOf]
  simp only [joinC_cons, joinC_nil, comb_score, zero_score]
  have hm : 0 ≤ (sparsityCore (wordCount (p.body?.getD ""))).2.1 :=
    le_of_lt (multiplier_pos _)
  gcongr
  · exact platformStep_mono test _ _ _ _ _ hm hmono
  · exact titleStrongStep_mono test _ _ _ hm hmono
  · exact titleMediumStep_mono test _ _ _ hm hmono

theorem claim_C7_witness :
    (∀ src, testW src ((some "").getD "") = true →
      testW src ((some "Error 404").getD "") = true) ∧
    (detection testW { pageW with title? := some "" }).confidence ≤
    (detection testW { pageW with title? := some "Error 404" }).confidence := by
  have hmono : ∀ src, testW src ((some "").getD "") = true →
      testW src ((some "Error 404").getD "") = true := by
    intro src h
    exfalso
    have : testW src "" = false := by
      unfold testW
      simp
    rw [Option.getD_some] at h
    rw [this] at h
    exact Bool.false_ne_true h
  refine ⟨hmono, claim_C7 testW pageW (some "") (some "Error 404") hmono ?_⟩
  refine ⟨{ src := "^error\\s+404", weight := 40, ctx := "title" }, by decide, ?_, ?_⟩
  · decide
  · decide

theorem toList_append (s t : String) : (s ++ t).toList = s.toList ++ t.toList := by
  cases s
  cases t
  rfl

theorem splitWsAux_no_ws (xs : List Char) (hxs : ∀ c ∈ xs, c.isWhitespace = false) :
    ∀ cur ys, splitWsAux cur (xs ++ ys) = splitWsAux (xs.reverse ++ cur) ys := by
  induction xs with
  | nil =>
    intro cur ys
    simp
  | cons c cs ih =>
    intro cur ys
    have hc : c.isWhitespace = false := hxs c (by simp)
    show splitWsAux cur (c :: (cs ++ ys)) = _
    rw [show splitWsAux cur (c :: (cs ++ ys)) =
      (if c.isWhitespace then cur.reverse :: splitWsAux [] (cs ++ ys)
       else splitWsAux (c :: cur) (cs ++ ys)) from rfl]
    rw [hc]
    simp only [Bool.false_eq_true, if_false]
    rw [ih (fun x hx => hxs x (by simp [hx])) (c :: cur) ys]
    simp [List.append_assoc]

theorem splitWsAux_space (cur ys : List Char) :
    splitWsAux cur (' ' :: ys) = cur.reverse :: splitWsAux [] ys := by
  rw [show splitWsAux cur (' ' :: ys) =
    (if (' ' : Char).isWhitespace then cur.reverse :: splitWsAux [] ys
     else splitWsAux (' ' :: cur) ys) from rfl]
  rw [show (' ' : Char).isWhitespace = true from rfl]
  simp

theorem words_joinTokens (l : List String)
    (h : ∀ s ∈ l, (∀ c ∈ s.toList, c.isWhitespace = false) ∧ 2 < s.length) :
    words (joinTokens l) = l := by
  induction l with
  | nil => rfl
  | cons a l ih =>
    cases l with
    | nil =>
      show words a = [a]
      obtain ⟨hws, hlen⟩ := h a (by simp)
      unfold words
      have h1 : splitWsAux [] a.toList = [a.toList] := by
        have h0 := splitWsAux_no_ws a.toList hws [] []
        rw [List.append_nil] at h0
        rw [h0]
        simp [splitWsAux]
      rw [h1]
      simp only [List.map_cons, List.map_nil]
      have hmk : String.mk a.toList = a := by cases a; rfl
      rw [hmk]
      rw [List.filter_cons, if_pos (decide_eq_true hlen)]
      rfl
    | cons b r =>
      show words (a ++ " " ++ joinTokens (b :: r)) = a :: b :: r
      obtain ⟨hws, hlen⟩ := h a (by simp)
      unfold words
      have htl : (a ++ " " ++ joinTokens (b :: r)).toList =
          a.toList ++ (' ' :: (joinTokens (b :: r)).toList) := by
        rw [toList_append, toList_append]
        simp [show (" " : String).toList = [' '] from rfl]
      rw [htl]
      rw [splitWsAux_no_ws a.toList hws [] (' ' :: (joinTokens (b :: r)).toList)]
      rw [List.append_nil, splitWsAux_space]
      simp only [List.reverse_reverse, List.map_cons]
      have hmk : String.mk a.toList = a := by cases a; rfl
      rw [hmk]
      rw [List.filter_cons, if_pos (decide_eq_true hlen)]
      have hrest := ih (fun s hs => h s (by simp [hs]))
      unfold words at hrest
      rw [hrest]

theorem tokChar_not_ws (d : ℕ) : (tokChar d).isWhitespace = false := by
  unfold tokChar
  split_ifs <;> decide

theorem tokChar_not_sentence (d : ℕ) : isSentenceChar (tokChar d) = false := by
  unfold tokChar
  split_ifs <;> decide

theorem tokChar_lower (d : ℕ) : (tokChar d).toLower = tokChar d := by
  unfold tokChar
  split_ifs <;> decide

theorem tok_toList (n : ℕ) :
    (tok n).toList = ['q', tokChar (n / 100 % 10), tokChar (n / 10 % 10), tokChar (n % 10)] :=
  rfl

theorem tok_not_ws (n : ℕ) : ∀ c ∈ (tok n).toList, c.isWhitespace = false := by
  intro c hc
  rw [tok_toList] at hc
  simp only [List.mem_cons, List.not_mem_nil, or_false] at hc
  rcases hc with rfl | rfl | rfl | rfl
  · decide
  · exact tokChar_not_ws _
  · exact tokChar_not_ws _
  · exact tokChar_not_ws _

theorem tok_not_sentence (n : ℕ) : ∀ c ∈ (tok n).toList, isSentenceChar c = false := by
  intro c hc
  rw [tok_toList] at hc
  simp only [List.mem_cons, List.not_mem_nil, or_false] at hc
  rcases hc with rfl | rfl | rfl | rfl
  · decide
  · exact tokChar_not_sentence _
  · exact tokChar_not_sentence _
  · exact tokChar_not_sentence _

theorem tok_length (n : ℕ) : (tok n).length = 4 := rfl

theorem tokens_props (n : ℕ) :
    ∀ s ∈ tokens n, (∀ c ∈ s.toList, c.isWhitespace = false) ∧ 2 < s.length := by
  intro s hs
  obtain ⟨k, _, rfl⟩ := List.mem_map.mp hs
  exact ⟨tok_not_ws k, by rw [tok_length]; omega⟩

theorem words_tokens (n : ℕ) : words (joinTokens (tokens n)) = tokens n :=
  words_joinTokens (tokens n) (tokens_props n)

theorem wordCount_tokens (n : ℕ) : wordCount (joinTokens (tokens n)) = n := by
  unfold wordCount
  rw [words_tokens]
  simp [tokens]

theorem tok_lower (n : ℕ) : toLowerStr (tok n) = tok n := by
  unfold toLowerStr
  rw [tok_toList]
  simp only [List.map_cons, List.map_nil, tokChar_lower]
  rfl

theorem tokChar_inj : ∀ d1 < 10, ∀ d2 < 10, tokChar d1 = tokChar d2 → d1 = d2 := by decide

theorem tok_inj : ∀ n1 < 1000, ∀ n2 < 1000, tok n1 = tok n2 → n1 = n2 := by
  intro n1 h1 n2 h2 he
  have hl : (tok n1).toList = (tok n2).toList := by rw [he]
  rw [tok_toList, tok_toList] at hl
  have e1 : tokChar (n1 / 100 % 10) = tokChar (n2 / 100 % 10) := by
    injection hl with _ hl
    injection hl with e _
  have e2 : tokChar (n1 / 10 % 10) = tokChar (n2 / 10 % 10) := by
    injection hl with _ hl
    injection hl with _ hl
    injection hl with e _
  have e3 : tokChar (n1 % 10) = tokChar (n2 % 10) := by
    injection hl with _ hl
    injection hl with _ hl
    injection hl with _ hl
    injection hl with e _
  have d1 := tokChar_inj _ (Nat.mod_lt _ (by norm_num)) _ (Nat.mod_lt _ (by norm_num)) e1
  have d2 := tokChar_inj _ (Nat.mod_lt _ (by norm_num)) _ (Nat.mod_lt _ (by norm_num)) e2
  have d3 := tokChar_inj _ (Nat.mod_lt _ (by norm_num)) _ (Nat.mod_lt _ (by norm_num)) e3
  omega

theorem tokens_nodup (n : ℕ) (h : n ≤ 1000) : (tokens n).Nodup := by
  refine List.Nodup.map_on ?_ (List.nodup_range n)
  intro x hx y hy hxy
  exact tok_inj x (by have := List.mem_range.mp hx; omega) y
    (by have := List.mem_range.mp hy; omega) hxy

theorem uniqueWords_tokens (n : ℕ) (h : n ≤ 1000) :
    uniqueWords (joinTokens (tokens n)) = n := by
  unfold uniqueWords
  rw [words_tokens]
  have hmap : (tokens n).map toLowerStr = tokens n := by
    have hcongr : (tokens n).map toLowerStr = (tokens n).map id :=
      List.map_congr_left (fun s hs => by
        obtain ⟨k, _, rfl⟩ := List.mem_map.mp hs
        exact tok_lower k)
    rw [hcongr, List.map_id]
  rw [hmap, List.dedup_eq_self.mpr (tokens_nodup n h)]
  simp [tokens]

theorem countRunsAux_zero (l : List Char) (h : ∀ c ∈ l, isSentenceChar c = false) :
    ∀ b, countRunsAux b l = 0 := by
  induction l with
  | nil => intro b; rfl
  | cons c cs ih =>
    intro b
    show (if isSentenceChar c && !b then 1 else 0) + countRunsAux (isSentenceChar c) cs = 0
    have hc := h c (by simp)
    have hrest := ih (fun x hx => h x (by simp [hx])) false
    simp [hc, hrest]

theorem joinTokens_chars (P : Char → Prop) (l : List String)
    (h : ∀ s ∈ l, ∀ c ∈ s.toList, P c) (hsp : P ' ') :
    ∀ c ∈ (joinTokens l).toList, P c := by
  induction l with
  | nil => intro c hc; cases hc
  | cons a l ih =>
    cases l with
    | nil =>
      intro c hc
      exact h a (by simp) c hc
    | cons b r =>
      intro c hc
      rw [show joinTokens (a :: b :: r) = a ++ " " ++ joinTokens (b :: r) from rfl] at hc
      rw [toList_append, toList_append] at hc
      simp only [List.mem_append] at hc
      rcases hc with (hc | hc) | hc
      · exact h a (by simp) c hc
      · rw [show (" " : String).toList = [' '] from rfl] at hc
        simp only [List.mem_singleton] at hc
        subst hc
        exact hsp
      · exact ih (fun s hs => h s (by simp [hs])) c hc

theorem sentenceCount_tokens (n : ℕ) : sentenceCount (joinTokens (tokens n)) = 0 := by
  unfold sentenceCount
  refine countRunsAux_zero _ ?_ false
  refine joinTokens_chars (fun c => isSentenceChar c = false) _ ?_ (by decide)
  intro s hs
  obtain ⟨k, _, rfl⟩ := List.mem_map.mp hs
  exact tok_not_sentence k

theorem comb_zero_zero :
    Contribution.comb Contribution.zero Contribution.zero = Contribution.zero := by
  unfold Contribution.comb Contribution.zero
  norm_num

theorem joinC_map_zero {α : Type} (l : List α) (f : α → Contribution)
    (h : ∀ a ∈ l, f a = Contribution.zero) : joinC (l.map f) = Contribution.zero := by
  induction l with
  | nil => rfl
  | cons a l ih =>
    simp only [List.map_cons, joinC_cons]
    rw [h a (by simp), ih (fun x hx => h x (by simp [hx]))]
    exact comb_zero_zero

theorem joinC_append (l1 l2 : List Contribution) :
    joinC (l1 ++ l2) = Contribution.comb (joinC l1) (joinC l2) := by
  induction l1 with
  | nil =>
    simp only [List.nil_append, joinC_nil]
    unfold Contribution.comb Contribution.zero
    simp
  | cons a l ih =>
    simp only [List.cons_append, joinC_cons, ih]
    unfold Contribution.comb
    simp [add_assoc]

theorem platformPatternContr_false (test : String → String → Bool)
    (hf : ∀ s t, test s t = false) (tt bt : String) (m : ℚ) (pd : String)
    (ind : Indicator) :
    platformPatternContr test tt bt m pd ind = Contribution.zero := by
  unfold platformPatternContr
  have hA : ¬((ind.ctx = "title" ∨ ind.ctx = "any") ∧ test ind.src tt = true) := by
    simp [hf]
  have hB : ¬(ind.ctx = "any" ∧ test ind.src bt = true) := by simp [hf]
  rw [if_neg hA, if_neg hB]
  exact comb_zero_zero

theorem platformStep_false (test : String → String → Bool)
    (hf : ∀ s t, test s t = false) (dom tt bt : String) (m : ℚ) :
    platformStep test dom tt bt m = Contribution.zero := by
  unfold platformStep
  apply joinC_map_zero
  intro pl _
  split
  · exact joinC_map_zero _ _ (fun ind _ => platformPatternContr_false test hf tt bt m pl.domain ind)
  · rfl

theorem titleStrongStep_false (test : String → String → Bool)
    (hf : ∀ s t, test s t = false) (tt : String) (m : ℚ) :
    titleStrongStep test tt m = Contribution.zero := by
  unfold titleStrongStep
  apply joinC_map_zero
  intro ind _
  rw [if_neg (by simp [hf])]

theorem titleMediumStep_false (test : String → String → Bool)
    (hf : ∀ s t, test s t = false) (tt : String) (m : ℚ) :
    titleMediumStep test tt m = Contribution.zero := by
  unfold titleMediumStep
  apply joinC_map_zero
  intro ind _
  rw [if_neg (by simp [hf])]

theorem h1Step_false (test : String → String → Bool)
    (hf : ∀ s t, test s t = false) (h1s : List String) (m : ℚ) :
    h1Step test h1s m = Contribution.zero := by
  unfold h1Step
  apply joinC_map_zero
  intro htext _
  unfold h1OneStep
  rw [joinC_append]
  rw [joinC_map_zero _ _ (fun ind _ => by rw [if_neg (by simp [hf])]),
    joinC_map_zero _ _ (fun ind _ => by rw [if_neg (by simp [hf])])]
  exact comb_zero_zero

theorem metaStep_zero {mp mh : Option String} (hm1 : mp ≠ some "404")
    (hm2 : mh ≠ some "404") : metaStep mp mh = Contribution.zero := by
  unfold metaStep
  rw [if_neg hm1, if_neg hm2]
  exact comb_zero_zero

theorem urlStep_false (test : String → String → Bool)
    (hf : ∀ s t, test s t = false) (u : String) :
    urlStep test u = Contribution.zero := by
  unfold urlStep
  apply joinC_map_zero
  intro up _
  rw [if_neg (by simp [hf])]

theorem weakCount_false (test : String → String → Bool)
    (hf : ∀ s t, test s t = false) (bt : String) : weakCount test bt = 0 := by
  unfold weakCount
  rw [List.filter_eq_nil_iff.mpr (fun ind _ => by simp [hf])]
  rfl

theorem weakStep_false (test : String → String → Bool)
    (hf : ∀ s t, test s t = false) (bt : String) :
    weakStep test bt = Contribution.zero := by
  unfold weakStep
  dsimp only
  rw [weakCount_false test hf bt]
  rfl

theorem bodyStep_false (test : String → String → Bool)
    (hf : ∀ s t, test s t = false) (bt : String) (wc : ℕ) (m : ℚ) :
    bodyStep test bt wc m = Contribution.zero := by
  unfold bodyStep
  apply joinC_map_zero
  intro ind _
  rw [if_neg (by simp [hf])]

theorem imageStep_false {b : Bool} (h : b = false) :
    imageStep b = Contribution.zero := by
  subst h
  rfl

theorem confidence_false (test : String → String → Bool)
    (hf : ∀ s t, test s t = false) (p : Page)
    (hm1 : p.metaPrerender ≠ some "404") (hm2 : p.metaHttpStatus ≠ some "404")
    (himg : has404ImageCalc p.images = false) :
    confidenceOf test p = (contentSparsity (bodyTextOf p)).1 +
      (structureStep (isKnownSiteCalc (domainOf p)) (wordCount (bodyTextOf p))
        p.images.length p.linksCount p.formsCount).score := by
  unfold confidenceOf totalOf stepsOf
  rw [platformStep_false test hf, titleStrongStep_false test hf, titleMediumStep_false test hf,
    h1Step_false test hf, metaStep_zero hm1 hm2, urlStep_false test hf, weakStep_false test hf,
    bodyStep_false test hf, imageStep_false himg]
  simp only [joinC_cons, joinC_nil, comb_score, zero_score]
  ring

theorem contentSparsity_fst (b : String) :
    (contentSparsity b).1 =
      (sparsityCore (wordCount b)).1 +
      (if 10 < wordCount b ∧ ((uniqueWords b : ℚ) / (max (wordCount b) 1 : ℚ) < 1/2)
        then (10 : ℚ) else 0) +
      (if 0 < wordCount b ∧ 0 < sentenceCount b ∧
          ((wordCount b : ℚ) / (sentenceCount b : ℚ) < 8)
        then (10 : ℚ) else 0) := by
  unfold contentSparsity
  dsimp only
  split_ifs <;> ring

theorem sparsityCore_fst_le (wc : ℕ) (h : 100 ≤ wc) : (sparsityCore wc).1 ≤ 5 := by
  unfold sparsityCore
  split_ifs <;> first | omega | norm_num

theorem sparsity_le_of_100 (b : String) (h : 100 ≤ wordCount b) :
    (contentSparsity b).1 ≤ 25 := by
  rw [contentSparsity_fst]
  have h1 := sparsityCore_fst_le (wordCount b) h
  have h2 : (if 10 < wordCount b ∧ ((uniqueWords b : ℚ) / (max (wordCount b) 1 : ℚ) < 1/2)
      then (10 : ℚ) else 0) ≤ 10 := by split_ifs <;> norm_num
  have h3 : (if 0 < wordCount b ∧ 0 < sentenceCount b ∧
      ((wordCount b : ℚ) / (sentenceCount b : ℚ) < 8) then (10 : ℚ) else 0) ≤ 10 := by
    split_ifs <;> norm_num
  linarith

theorem structureStep_score_le (known : Bool) (wc ni nl nf : ℕ) :
    (structureStep known wc ni nl nf).score ≤ 10 := by
  unfold structureStep
  split_ifs <;> norm_num [Contribution.zero]

theorem structureStep_known_ge100 (wc ni nl nf : ℕ) (h : 100 ≤ wc) :
    structureStep true wc ni nl nf = Contribution.zero := by
  unfold structureStep
  rw [if_neg (by rintro ⟨h1, _⟩; exact Bool.noConfusion h1),
    if_neg (by rintro ⟨_, h2⟩; omega)]

theorem isKnown_of_fb (dom : String) (h : includes dom "facebook.com" = true) :
    isKnownSiteCalc dom = true := by
  unfold isKnownSiteCalc
  rw [List.any_eq_true]
  exact ⟨"facebook.com", by simp, h⟩

theorem thresholds_fst_ge_45 (wc : ℕ) : 45 ≤ (thresholds wc).1 := by
  unfold thresholds
  split_ifs <;> norm_num

theorem thresholds_fst_ge_58 (wc : ℕ) (h : 100 ≤ wc) : 58 ≤ (thresholds wc).1 := by
  unfold thresholds
  split_ifs <;> first | omega | norm_num

theorem decisionLogic_false (conf th : ℚ) (req : ℕ) (e pd fb : Bool)
    (wc len strong : ℕ) (h40 : conf < 40) (h45 : conf < 45)
    (h35 : fb = true → conf < 35) (hth : conf < th) (hth5 : conf < th - 5) :
    decisionLogic conf th req e pd fb wc len strong = false := by
  unfold decisionLogic
  rw [if_neg (by intro h; linarith)]
  rw [if_neg (by rintro ⟨_, h⟩; linarith)]
  by_cases hpd : pd = true
  · rw [if_pos hpd]
    rw [if_neg (by rintro ⟨hfb, h⟩; have := h35 hfb; linarith)]
    rw [if_neg (by intro h; linarith)]
  · rw [if_neg hpd]
    rw [if_neg (by rintro ⟨_, h⟩; linarith)]
    rw [if_neg (by rintro ⟨_, h⟩; linarith)]
    rw [decide_eq_false (by rintro ⟨h, _⟩; linarith)]

/-- C8 (amended): the classifier is total: missing title and body are
normalized to the empty string and classification is unchanged; and a
signal-free page of at least 100 words scores at most 35 and classifies
false. (On signal-free pages under 100 words the sparsity and structure
bonuses alone can classify true, so the unqualified claim fails.) -/
theorem claim_C8 :
    (∀ (test : String → String → Bool) (p : Page),
      detection test { p with title? := none, body? := none } =
      detection test { p with title? := some "", body? := some "" }) ∧
    (∀ (test : String → String → Bool) (p : Page),
      (∀ s t, test s t = false) →
      p.metaPrerender ≠ some "404" → p.metaHttpStatus ≠ some "404" →
      has404ImageCalc p.images = false →
      100 ≤ wordCount (bodyTextOf p) →
      (detection test p).confidence ≤ 35 ∧ (detection test p).is404 = false) := by
  constructor
  · intro test p
    rfl
  · intro test p hf hm1 hm2 himg hwc
    have hconf : confidenceOf test p = (contentSparsity (bodyTextOf p)).1 +
        (structureStep (isKnownSiteCalc (domainOf p)) (wordCount (bodyTextOf p))
          p.images.length p.linksCount p.formsCount).score :=
      confidence_false test hf p hm1 hm2 himg
    have hsp := sparsity_le_of_100 (bodyTextOf p) hwc
    have hstr := structureStep_score_le (isKnownSiteCalc (domainOf p))
      (wordCount (bodyTextOf p)) p.images.length p.linksCount p.formsCount
    have hbound : confidenceOf test p ≤ 35 := by rw [hconf]; linarith
    refine ⟨hbound, ?_⟩
    show decisionLogic (confidenceOf test p) _ _ _ _ _ _ _ _ = false
    have hth := thresholds_fst_ge_58 (wordCount (bodyTextOf p)) hwc
    apply decisionLogic_false
    · linarith
    · linarith
    · intro hfb
      rw [hconf, isKnown_of_fb (domainOf p) hfb,
        structureStep_known_ge100 _ _ _ _ hwc, zero_score] at *
      linarith
    · linarith
    · linarith

theorem claim_C8_witness :
    (detection test0 page100).confidence ≤ 35 ∧ (detection test0 page100).is404 = false := by
  apply claim_C8.2 test0 page100 (fun _ _ => rfl) (by decide) (by decide) rfl
  show 100 ≤ wordCount (joinTokens (tokens 100))
  rw [wordCount_tokens 100]

set_option maxRecDepth 10000 in
/-- C10: on a valid 501-word page matching no signal, the accumulated
confidence is exactly minus 20, strictly negative (never clamped), and the
classification returned is false. -/
theorem claim_C10 :
    (detection test0 pageT).confidence = -20 ∧
    (detection test0 pageT).confidence < 0 ∧
    checkIf404Page test0 pageT = false := by
  have hwc : wordCount (bodyTextOf pageT) = 501 := by
    show wordCount (joinTokens (tokens 501)) = 501
    exact wordCount_tokens 501
  have huw : uniqueWords (bodyTextOf pageT) = 501 := by
    show uniqueWords (joinTokens (tokens 501)) = 501
    exact uniqueWords_tokens 501 (by norm_num)
  have hsc : sentenceCount (bodyTextOf pageT) = 0 := by
    show sentenceCount (joinTokens (tokens 501)) = 0
    exact sentenceCount_tokens 501
  have hsp : (contentSparsity (bodyTextOf pageT)).1 = -20 := by
    rw [contentSparsity_fst, hwc, huw, hsc]
    rw [if_neg ?hdiv, if_neg ?hsen]
    case hdiv =>
      rintro ⟨_, h⟩
      norm_num at h
    case hsen =>
      rintro ⟨_, h, _⟩
      omega
    norm_num [sparsityCore]
  have hstr : (structureStep (isKnownSiteCalc (domainOf pageT))
      (wordCount (bodyTextOf pageT)) pageT.images.length pageT.linksCount
      pageT.formsCount).score = 0 := by
    rw [hwc]
    rw [show isKnownSiteCalc (domainOf pageT) = false by decide]
    unfold structureStep
    rw [if_neg (by rintro ⟨_, _, h, _⟩; revert h; decide),
      if_neg (by rintro ⟨h, _⟩; exact Bool.false_ne_true h)]
    rfl
  have hconf : (detection test0 pageT).confidence = -20 := by
    show confidenceOf test0 pageT = -20
    rw [confidence_false test0 (fun _ _ => rfl) pageT (by decide) (by decide) rfl, hsp, hstr]
    norm_num
  refine ⟨hconf, by rw [hconf]; norm_num, ?_⟩
  show decisionLogic (confidenceOf test0 pageT) _ _ _ _ _ _ _ _ = false
  have hconf2 : confidenceOf test0 pageT = -20 := hconf
  have hth := thresholds_fst_ge_45 (wordCount (bodyTextOf pageT))
  apply decisionLogic_false
  · rw [hconf2]; norm_num
  · rw [hconf2]; norm_num
  · intro _
    rw [hconf2]; norm_num
  · rw [hconf2]; linarith
  · rw [hconf2]; linarith

theorem marker_of_pd (dom : String) (inds : List String)
    (h : platformDetectedCalc dom inds = true) :
    ∃ s ∈ inds, isPlatformMarker s = true := by
  unfold platformDetectedCalc at h
  rw [List.any_eq_true] at h
  obtain ⟨pl, hpl, hp⟩ := h
  rw [Bool.and_eq_true] at hp
  obtain ⟨hdom, hin⟩ := hp
  rw [List.any_eq_true] at hin
  obtain ⟨s, hs, hmark⟩ := hin
  refine ⟨s, hs, ?_⟩
  unfold isPlatformMarker
  rw [List.any_eq_true]
  exact ⟨pl, hpl, hmark⟩

theorem mem_joinC_trail {s : String} {l : List Contribution}
    (h : s ∈ (joinC l).trail) : ∃ c ∈ l, s ∈ c.trail := by
  induction l with
  | nil => cases h
  | cons a l ih =>
    rw [joinC_cons, comb_trail] at h
    rcases List.mem_append.mp h with h | h
    · exact ⟨a, by simp, h⟩
    · obtain ⟨c, hc, hsc⟩ := ih h
      exact ⟨c, by simp [hc], hsc⟩

theorem trail_cases {α : Type} {s : String} {l : List α} {f : α → Contribution}
    (h : s ∈ (joinC (l.map f)).trail) : ∃ a ∈ l, s ∈ (f a).trail := by
  obtain ⟨c, hc, hsc⟩ := mem_joinC_trail h
  obtain ⟨a, ha, rfl⟩ := List.mem_map.mp hc
  exact ⟨a, ha, hsc⟩

theorem no_marker_title_strong :
    ∀ ind ∈ strongIndicators,
      isPlatformMarker ("Title matches: " ++ ind.src) = false := by decide

theorem no_marker_title_medium :
    ∀ ind ∈ mediumIndicators,
      isPlatformMarker ("Title matches (medium): " ++ ind.src) = false := by decide

theorem no_marker_h1 :
    ∀ ind ∈ strongIndicators ++ mediumIndicators,
      isPlatformMarker ("H1 matches: " ++ ind.src) = false := by decide

theorem no_marker_meta1 :
    isPlatformMarker "Meta prerender-status-code is 404" = false := by decide

theorem no_marker_meta2 :
    isPlatformMarker "Meta http-equiv status is 404" = false := by decide

theorem no_marker_url :
    ∀ up ∈ urlPatterns,
      isPlatformMarker ("URL matches: " ++ up.src) = false := by decide

theorem no_marker_weak :
    ∀ k ≤ 5,
      isPlatformMarker ("Multiple weak indicators found: " ++ toString k) = false := by
  decide

theorem no_marker_body :
    ∀ ind ∈ strongIndicators ++ mediumIndicators,
      isPlatformMarker ("Body matches: " ++ ind.src) = false := by decide

theorem no_marker_structure1 :
    isPlatformMarker "Minimal page structure" = false := by decide

theorem no_marker_structure2 :
    isPlatformMarker "Known site with sparse content" = false := by decide

theorem no_marker_image : isPlatformMarker "404 image found" = false := by decide

theorem no_marker_sparsity_small :
    ∀ wc < 20,
      isPlatformMarker ("Extremely sparse content: " ++ toString wc ++ " words") = false := by
  decide

theorem no_marker_diversity :
    isPlatformMarker "Low vocabulary diversity" = false := by decide

theorem no_marker_sentences :
    isPlatformMarker "Very short sentences" = false := by decide

theorem titleStrong_no_marker (test : String → String → Bool) (tt : String) (m : ℚ) :
    ∀ s ∈ (titleStrongStep test tt m).trail, isPlatformMarker s = false := by
  intro s hs
  unfold titleStrongStep at hs
  obtain ⟨ind, hind, hsc⟩ := trail_cases hs
  by_cases hC : (ind.ctx = "title" ∨ ind.ctx = "any") ∧ test ind.src tt = true
  · rw [if_pos hC] at hsc
    simp only [List.mem_singleton] at hsc
    subst hsc
    exact no_marker_title_strong ind hind
  · rw [if_neg hC] at hsc
    cases hsc

theorem titleMedium_no_marker (test : String → String → Bool) (tt : String) (m : ℚ) :
    ∀ s ∈ (titleMediumStep test tt m).trail, isPlatformMarker s = false := by
  intro s hs
  unfold titleMediumStep at hs
  obtain ⟨ind, hind, hsc⟩ := trail_cases hs
  by_cases hC : (ind.ctx = "title" ∨ ind.ctx = "any") ∧ test ind.src tt = true
  · rw [if_pos hC] at hsc
    simp only [List.mem_singleton] at hsc
    subst hsc
    exact no_marker_title_medium ind hind
  · rw [if_neg hC] at hsc
    cases hsc

theorem h1_no_marker (test : String → String → Bool) (h1s : List String) (m : ℚ) :
    ∀ s ∈ (h1Step test h1s m).trail, isPlatformMarker s = false := by
  intro s hs
  unfold h1Step at hs
  obtain ⟨htext, _, hsc⟩ := trail_cases hs
  unfold h1OneStep at hsc
  obtain ⟨c, hc, hsc2⟩ := mem_joinC_trail hsc
  rcases List.mem_append.mp hc with hc | hc
  · obtain ⟨ind, hind, rfl⟩ := List.mem_map.mp hc
    by_cases hC : ind.ctx = "any" ∧ test ind.src htext = true
    · rw [if_pos hC] at hsc2
      simp only [List.mem_singleton] at hsc2
      subst hsc2
      exact no_marker_h1 ind (List.mem_append_left _ hind)
    · rw [if_neg hC] at hsc2
      cases hsc2
  · obtain ⟨ind, hind, rfl⟩ := List.mem_map.mp hc
    by_cases hC : ind.ctx = "any" ∧ test ind.src htext = true
    · rw [if_pos hC] at hsc2
      simp only [List.mem_singleton] at hsc2
      subst hsc2
      exact no_marker_h1 ind (List.mem_append_right _ hind)
    · rw [if_neg hC] at hsc2
      cases hsc2

theorem meta_no_marker (mp mh : Option String) :
    ∀ s ∈ (metaStep mp mh).trail, isPlatformMarker s = false := by
  intro s hs
  unfold metaStep at hs
  rw [comb_trail] at hs
  rcases List.mem_append.mp hs with hs | hs
  · by_cases hC : mp = some "404"
    · rw [if_pos hC] at hs
      simp only [List.mem_singleton] at hs
      subst hs
      exact no_marker_meta1
    · rw [if_neg hC] at hs
      cases hs
  · by_cases hC : mh = some "404"
    · rw [if_pos hC] at hs
      simp only [List.mem_singleton] at hs
      subst hs
      exact no_marker_meta2
    · rw [if_neg hC] at hs
      cases hs

theorem url_no_marker (test : String → String → Bool) (u : String) :
    ∀ s ∈ (urlStep test u).trail, isPlatformMarker s = false := by
  intro s hs
  unfold urlStep at hs
  obtain ⟨up, hup, hsc⟩ := trail_cases hs
  by_cases hC : test up.src u = true
  · rw [if_pos hC] at hsc
    simp only [List.mem_singleton] at hsc
    subst hsc
    exact no_marker_url up hup
  · rw [if_neg hC] at hsc
    cases hsc

theorem weakCount_le (test : String → String → Bool) (bt : String) :
    weakCount test bt ≤ 5 := by
  unfold weakCount
  have h := List.length_filter_le (fun ind => test ind.src bt) weakIndicators
  simpa using h

theorem weak_no_marker (test : String → String → Bool) (bt : String) :
    ∀ s ∈ (weakStep test bt).trail, isPlatformMarker s = false := by
  intro s hs
  unfold weakStep at hs
  dsimp only at hs
  by_cases hC : 3 ≤ weakCount test bt
  · rw [if_pos hC] at hs
    simp only [List.mem_singleton] at hs
    subst hs
    exact no_marker_weak (weakCount test bt) (weakCount_le test bt)
  · rw [if_neg hC] at hs
    cases hs

theorem body_no_marker (test : String → String → Bool) (bt : String) (wc : ℕ) (m : ℚ) :
    ∀ s ∈ (bodyStep test bt wc m).trail, isPlatformMarker s = false := by
  intro s hs
  unfold bodyStep at hs
  obtain ⟨ind, hind, hsc⟩ := trail_cases hs
  by_cases hC : ind.ctx = "any" ∧ test ind.src bt = true
  · rw [if_pos hC] at hsc
    simp only [List.mem_singleton] at hsc
    subst hsc
    exact no_marker_body ind hind
  · rw [if_neg hC] at hsc
    cases hsc

theorem structure_no_marker (known : Bool) (wc ni nl nf : ℕ) :
    ∀ s ∈ (structureStep known wc ni nl nf).trail, isPlatformMarker s = false := by
  intro s hs
  unfold structureStep at hs
  split_ifs at hs
  · simp only [List.mem_singleton] at hs
    subst hs
    exact no_marker_structure1
  · simp only [List.mem_singleton] at hs
    subst hs
    exact no_marker_structure2
  · cases hs

theorem image_no_marker (b : Bool) :
    ∀ s ∈ (imageStep b).trail, isPlatformMarker s = false := by
  intro s hs
  unfold imageStep at hs
  split_ifs at hs
  · simp only [List.mem_singleton] at hs
    subst hs
    exact no_marker_image
  · cases hs

theorem contentSparsity_trd (b : String) :
    (contentSparsity b).2.2 =
      (sparsityCore (wordCount b)).2.2 ++
      (if 10 < wordCount b ∧ ((uniqueWords b : ℚ) / (max (wordCount b) 1 : ℚ) < 1/2)
        then ["Low vocabulary diversity"] else []) ++
      (if 0 < wordCount b ∧ 0 < sentenceCount b ∧
          ((wordCount b : ℚ) / (sentenceCount b : ℚ) < 8)
        then ["Very short sentences"] else []) := by
  unfold contentSparsity
  dsimp only
  split_ifs <;> simp

theorem sparsity_no_marker (b : String) (hwc : wordCount b < 20) :
    ∀ s ∈ (contentSparsity b).2.2, isPlatformMarker s = false := by
  intro s hs
  rw [contentSparsity_trd] at hs
  rcases List.mem_append.mp hs with hs | hs
  · rcases List.mem_append.mp hs with hs | hs
    · unfold sparsityCore at hs
      rw [if_pos hwc] at hs
      simp only [List.mem_singleton] at hs
      subst hs
      exact no_marker_sparsity_small (wordCount b) hwc
    · split_ifs at hs
      · simp only [List.mem_singleton] at hs
        subst hs
        exact no_marker_diversity
      · cases hs
  · split_ifs at hs
    · simp only [List.mem_singleton] at hs
      subst hs
      exact no_marker_sentences
    · cases hs

theorem joinC_score_nonneg (l : List Contribution) (h : ∀ c ∈ l, 0 ≤ c.score) :
    0 ≤ (joinC l).score := by
  induction l with
  | nil => exact le_refl _
  | cons a l ih =>
    rw [joinC_cons, comb_score]
    have h1 := h a (by simp)
    have h2 := ih (fun c hc => h c (by simp [hc]))
    linarith

theorem ite_score_nonneg (c : Prop) [Decidable c] (v : Contribution)
    (hv : 0 ≤ v.score) : 0 ≤ (if c then v else Contribution.zero).score := by
  split_ifs
  · exact hv
  · exact le_refl _

theorem joinC_map_score_nonneg {α : Type} (l : List α) (f : α → Contribution)
    (h : ∀ a ∈ l, 0 ≤ (f a).score) : 0 ≤ (joinC (l.map f)).score := by
  induction l with
  | nil => exact le_refl _
  | cons a l ih =>
    simp only [List.map_cons, joinC_cons, comb_score]
    have h1 := h a (by simp)
    have h2 := ih (fun x hx => h x (by simp [hx]))
    linarith

theorem titleStrongStep_nonneg (test : String → String → Bool) (tt : String) (m : ℚ)
    (hm : 0 ≤ m) : 0 ≤ (titleStrongStep test tt m).score := by
  unfold titleStrongStep
  apply joinC_map_score_nonneg
  intro ind hind
  exact ite_score_nonneg _ _ (mul_nonneg (strong_weights_nonneg ind hind) hm)

theorem titleMediumStep_nonneg (test : String → String → Bool) (tt : String) (m : ℚ)
    (hm : 0 ≤ m) : 0 ≤ (titleMediumStep test tt m).score := by
  unfold titleMediumStep
  apply joinC_map_score_nonneg
  intro ind hind
  exact ite_score_nonneg _ _ (mul_nonneg (medium_weights_nonneg ind hind) hm)

theorem catalog_weights_nonneg :
    ∀ ind ∈ strongIndicators ++ mediumIndicators, 0 ≤ ind.weight := by decide

theorem h1Step_nonneg (test : String → String → Bool) (h1s : List String) (m : ℚ)
    (hm : 0 ≤ m) : 0 ≤ (h1Step test h1s m).score := by
  unfold h1Step
  apply joinC_map_score_nonneg
  intro htext _
  unfold h1OneStep
  rw [joinC_append, comb_score]
  have h1 : 0 ≤ (joinC (strongIndicators.map (fun ind =>
      if ind.ctx = "any" ∧ test ind.src htext = true then
        ⟨ind.weight * (4/5) * m, 1, 0, ["H1 matches: " ++ ind.src]⟩
      else Contribution.zero))).score := by
    apply joinC_map_score_nonneg
    intro ind hind
    exact ite_score_nonneg _ _
      (mul_nonneg (mul_nonneg (strong_weights_nonneg ind hind) (by norm_num)) hm)
  have h2 : 0 ≤ (joinC (mediumIndicators.map (fun ind =>
      if ind.ctx = "any" ∧ test ind.src htext = true then
        ⟨ind.weight * (4/5) * m, 0, 0, ["H1 matches: " ++ ind.src]⟩
      else Contribution.zero))).score := by
    apply joinC_map_score_nonneg
    intro ind hind
    exact ite_score_nonneg _ _
      (mul_nonneg (mul_nonneg (medium_weights_nonneg ind hind) (by norm_num)) hm)
  linarith

theorem metaStep_nonneg (mp mh : Option String) : 0 ≤ (metaStep mp mh).score := by
  unfold metaStep
  rw [comb_score]
  have h1 : 0 ≤ (if mp = some "404" then
      (⟨50, 1, 0, ["Meta prerender-status-code is 404"]⟩ : Contribution)
      else Contribution.zero).score := ite_score_nonneg _ _ (by norm_num)
  have h2 : 0 ≤ (if mh = some "404" then
      (⟨50, 1, 0, ["Meta http-equiv status is 404"]⟩ : Contribution)
      else Contribution.zero).score := ite_score_nonneg _ _ (by norm_num)
  linarith

theorem url_weights_nonneg : ∀ up ∈ urlPatterns, 0 ≤ up.weight := by decide

theorem urlStep_nonneg (test : String → String → Bool) (u : String) :
    0 ≤ (urlStep test u).score := by
  unfold urlStep
  apply joinC_map_score_nonneg
  intro up hup
  exact ite_score_nonneg _ _ (url_weights_nonneg up hup)

theorem weakStep_nonneg (test : String → String → Bool) (bt : String) :
    0 ≤ (weakStep test bt).score := by
  rw [weakStep_score]
  split_ifs
  · positivity
  · exact le_refl _

theorem bodyWeightFor_nonneg (wc : ℕ) : 0 ≤ bodyWeightFor wc := by
  unfold bodyWeightFor
  split_ifs <;> norm_num

theorem bodyStep_nonneg (test : String → String → Bool) (bt : String) (wc : ℕ) (m : ℚ)
    (hm : 0 ≤ m) : 0 ≤ (bodyStep test bt wc m).score := by
  unfold bodyStep
  apply joinC_map_score_nonneg
  intro ind hind
  exact ite_score_nonneg _ _
    (mul_nonneg (mul_nonneg (catalog_weights_nonneg ind hind) (bodyWeightFor_nonneg wc)) hm)

theorem structureStep_nonneg (known : Bool) (wc ni nl nf : ℕ) :
    0 ≤ (structureStep known wc ni nl nf).score := by
  unfold structureStep
  split_ifs <;> norm_num [Contribution.zero]

theorem imageStep_nonneg (b : Bool) : 0 ≤ (imageStep b).score := by
  unfold imageStep
  split_ifs <;> norm_num [Contribution.zero]

theorem platform_min_weight :
    ∀ pl ∈ platformSpecific404s, ∀ ind ∈ pl.patterns, 20 ≤ ind.weight := by decide

theorem platformPatternContr_nonneg (test : String → String → Bool)
    (tt bt : String) (m : ℚ) (pd : String) (ind : Indicator) (hm : 0 ≤ m)
    (hw : 0 ≤ ind.weight) :
    0 ≤ (platformPatternContr test tt bt m pd ind).score := by
  unfold platformPatternContr
  rw [comb_score]
  have h1 := ite_score_nonneg
    ((ind.ctx = "title" ∨ ind.ctx = "any") ∧ test ind.src tt = true)
    (⟨ind.weight * m, 1, 0, ["Platform-specific (" ++ pd ++ "): " ++ ind.src]⟩ : Contribution)
    (mul_nonneg hw hm)
  have h2 := ite_score_nonneg (ind.ctx = "any" ∧ test ind.src bt = true)
    (⟨ind.weight * (1/2) * m, 0, 0,
      ["Platform-specific body (" ++ pd ++ "): " ++ ind.src]⟩ : Contribution)
    (mul_nonneg (mul_nonneg hw (by norm_num)) hm)
  linarith

theorem platformStep_nonneg (test : String → String → Bool) (dom tt bt : String)
    (m : ℚ) (hm : 0 ≤ m) : 0 ≤ (platformStep test dom tt bt m).score := by
  unfold platformStep
  apply joinC_map_score_nonneg
  intro pl hpl
  split_ifs
  · apply joinC_map_score_nonneg
    intro ind hind
    exact platformPatternContr_nonneg test tt bt m pl.domain ind hm
      (le_trans (by norm_num) (platform_min_weight pl hpl ind hind))
  · exact le_refl _

theorem joinC_lb (l : List Contribution) (q : ℚ) (hq : 0 ≤ q)
    (h : ∀ c ∈ l, 0 ≤ c.score ∧ (c.trail ≠ [] → q ≤ c.score))
    (hne : (joinC l).trail ≠ []) : q ≤ (joinC l).score := by
  induction l with
  | nil => exact absurd rfl hne
  | cons a l ih =>
    rw [joinC_cons, comb_trail] at hne
    rw [joinC_cons, comb_score]
    have hnn : 0 ≤ (joinC l).score :=
      joinC_score_nonneg l (fun c hc => (h c (by simp [hc])).1)
    by_cases ha : a.trail = []
    · have hlne : (joinC l).trail ≠ [] := by
        intro hl
        apply hne
        rw [ha, hl]
        rfl
      have h2 := ih (fun c hc => h c (by simp [hc])) hlne
      have ha0 := (h a (by simp)).1
      linarith
    · have h2 := (h a (by simp)).2 ha
      linarith

theorem platformPatternContr_lb (test : String → String → Bool)
    (tt bt : String) (m : ℚ) (pd : String) (ind : Indicator) (hm : 0 ≤ m)
    (hw : 20 ≤ ind.weight)
    (hne : (platformPatternContr test tt bt m pd ind).trail ≠ []) :
    10 * m ≤ (platformPatternContr test tt bt m pd ind).score := by
  have ht : 10 * m ≤ ind.weight * m :=
    mul_le_mul_of_nonneg_right (by linarith) hm
  have hb : 10 * m ≤ ind.weight * (1/2) * m := by
    have h0 : (10:ℚ) ≤ ind.weight * (1/2) := by linarith
    exact mul_le_mul_of_nonneg_right h0 hm
  unfold platformPatternContr at hne ⊢
  rw [comb_score]
  rw [comb_trail] at hne
  by_cases h1 : (ind.ctx = "title" ∨ ind.ctx = "any") ∧ test ind.src tt = true
  · rw [if_pos h1]
    have h2 := ite_score_nonneg (ind.ctx = "any" ∧ test ind.src bt = true)
      (⟨ind.weight * (1/2) * m, 0, 0,
        ["Platform-specific body (" ++ pd ++ "): " ++ ind.src]⟩ : Contribution)
      (by
        have h0 : (0:ℚ) ≤ ind.weight * (1/2) := by linarith
        exact mul_nonneg h0 hm)
    show 10 * m ≤ ind.weight * m + _
    linarith
  · rw [if_neg h1]
    rw [if_neg h1] at hne
    by_cases h2 : ind.ctx = "any" ∧ test ind.src bt = true
    · rw [if_pos h2]
      show 10 * m ≤ Contribution.zero.score + ind.weight * (1/2) * m
      rw [zero_score]
      linarith
    · rw [if_neg h2] at hne
      exact absurd rfl hne

theorem platformStep_lb (test : String → String → Bool) (dom tt bt : String) (m : ℚ)
    (hm : 0 ≤ m) (hne : (platformStep test dom tt bt m).trail ≠ []) :
    10 * m ≤ (platformStep test dom tt bt m).score := by
  unfold platformStep at hne ⊢
  apply joinC_lb _ _ (mul_nonneg (by norm_num) hm) ?_ hne
  intro c hc
  obtain ⟨pl, hpl, rfl⟩ := List.mem_map.mp hc
  by_cases hd : includes dom pl.domain = true
  · rw [if_pos hd]
    constructor
    · apply joinC_map_score_nonneg
      intro ind hind
      exact platformPatternContr_nonneg test tt bt m pl.domain ind hm
        (le_trans (by norm_num) (platform_min_weight pl hpl ind hind))
    · intro hne2
      apply joinC_lb _ _ (mul_nonneg (by norm_num) hm) ?_ hne2
      intro c2 hc2
      obtain ⟨ind, hind, rfl⟩ := List.mem_map.mp hc2
      refine ⟨platformPatternContr_nonneg test tt bt m pl.domain ind hm
        (le_trans (by norm_num) (platform_min_weight pl hpl ind hind)), ?_⟩
      intro hne3
      exact platformPatternContr_lb test tt bt m pl.domain ind hm
        (platform_min_weight pl hpl ind hind) hne3
  · rw [if_neg hd]
    exact ⟨le_refl _, fun hz => absurd rfl hz⟩

theorem multiplier_eq_2 (b : String) (h : wordCount b < 20) :
    (contentSparsity b).2.1 = 2 := by
  show (sparsityCore (wordCount b)).2.1 = 2
  unfold sparsityCore
  rw [if_pos h]

theorem sparsity_ge_35 (b : String) (h : wordCount b < 20) :
    35 ≤ (contentSparsity b).1 := by
  rw [contentSparsity_fst]
  have h1 : (sparsityCore (wordCount b)).1 = 35 := by
    unfold sparsityCore
    rw [if_pos h]
  rw [h1]
  have h2 : (0:ℚ) ≤ (if 10 < wordCount b ∧
      ((uniqueWords b : ℚ) / (max (wordCount b) 1 : ℚ) < 1/2) then (10:ℚ) else 0) := by
    split_ifs <;> norm_num
  have h3 : (0:ℚ) ≤ (if 0 < wordCount b ∧ 0 < sentenceCount b ∧
      ((wordCount b : ℚ) / (sentenceCount b : ℚ) < 8) then (10:ℚ) else 0) := by
    split_ifs <;> norm_num
  linarith

theorem reach_55 (test : String → String → Bool) (p : Page)
    (hwc : wordCount (bodyTextOf p) < 20)
    (hpd : platformDetectedCalc (domainOf p) (indicatorsOf test p) = true) :
    55 ≤ confidenceOf test p := by
  obtain ⟨s, hs, hmark⟩ := marker_of_pd _ _ hpd
  unfold indicatorsOf at hs
  rcases List.mem_append.mp hs with hs | hs
  · exact Bool.noConfusion
      ((sparsity_no_marker (bodyTextOf p) hwc s hs).symm.trans hmark)
  · have hm2 : multiplierOf p = 2 := multiplier_eq_2 _ hwc
    have hm0 : (0:ℚ) ≤ multiplierOf p := multiplierOf_nonneg p
    unfold totalOf stepsOf at hs
    obtain ⟨c, hc, hsc⟩ := mem_joinC_trail hs
    simp only [List.mem_cons, List.not_mem_nil, or_false] at hc
    have hsp := sparsity_ge_35 (bodyTextOf p) hwc
    have hpf0 := platformStep_nonneg test (domainOf p) (titleTextOf p) (bodyTextOf p)
      (multiplierOf p) hm0
    have hts0 := titleStrongStep_nonneg test (titleTextOf p) (multiplierOf p) hm0
    have htm0 := titleMediumStep_nonneg test (titleTextOf p) (multiplierOf p) hm0
    have hh10 := h1Step_nonneg test p.h1s (multiplierOf p) hm0
    have hmt0 := metaStep_nonneg p.metaPrerender p.metaHttpStatus
    have hur0 := urlStep_nonneg test (urlLowerOf p)
    have hwk0 := weakStep_nonneg test (bodyTextOf p)
    have hbd0 := bodyStep_nonneg test (bodyTextOf p) (wordCount (bodyTextOf p))
      (multiplierOf p) hm0
    have hst0 := structureStep_nonneg (isKnownSiteCalc (domainOf p))
      (wordCount (bodyTextOf p)) p.images.length p.linksCount p.formsCount
    have him0 := imageStep_nonneg (has404ImageCalc p.images)
    have hkey : 20 ≤ (platformStep test (domainOf p) (titleTextOf p) (bodyTextOf p)
        (multiplierOf p)).score := by
      rcases hc with rfl | rfl | rfl | rfl | rfl | rfl | rfl | rfl | rfl | rfl
      · have hne : (platformStep test (domainOf p) (titleTextOf p) (bodyTextOf p)
            (multiplierOf p)).trail ≠ [] := by
          intro hnil
          rw [hnil] at hsc
          cases hsc
        have hlb := platformStep_lb test (domainOf p) (titleTextOf p) (bodyTextOf p)
          (multiplierOf p) hm0 hne
        have h20 : (10:ℚ) * multiplierOf p = 20 := by rw [hm2]; norm_num
        linarith
      · exact Bool.noConfusion
          ((titleStrong_no_marker test (titleTextOf p) (multiplierOf p) s hsc).symm.trans hmark)
      · exact Bool.noConfusion
          ((titleMedium_no_marker test (titleTextOf p) (multiplierOf p) s hsc).symm.trans hmark)
      · exact Bool.noConfusion
          ((h1_no_marker test p.h1s (multiplierOf p) s hsc).symm.trans hmark)
      · exact Bool.noConfusion
          ((meta_no_marker p.metaPrerender p.metaHttpStatus s hsc).symm.trans hmark)
      · exact Bool.noConfusion
          ((url_no_marker test (urlLowerOf p) s hsc).symm.trans hmark)
      · exact Bool.noConfusion
          ((weak_no_marker test (bodyTextOf p) s hsc).symm.trans hmark)
      · exact Bool.noConfusion
          ((body_no_marker test (bodyTextOf p) (wordCount (bodyTextOf p)) (multiplierOf p)
            s hsc).symm.trans hmark)
      · exact Bool.noConfusion
          ((structure_no_marker (isKnownSiteCalc (domainOf p)) (wordCount (bodyTextOf p))
            p.images.length p.linksCount p.formsCount s hsc).symm.trans hmark)
      · exact Bool.noConfusion
          ((image_no_marker (has404ImageCalc p.images) s hsc).symm.trans hmark)
    unfold confidenceOf totalOf stepsOf
    simp only [joinC_cons, joinC_nil, comb_score, zero_score]
    linarith

theorem thresholds_fst_eq (wc : ℕ) :
    (thresholds wc).1 = (if wc < 20 then (45 : ℚ) else if wc < 50 then 50
      else if wc < 100 then 55 else if wc < 200 then 58 else 60) := by
  unfold thresholds
  split_ifs <;> rfl

theorem thresholds_snd_eq (wc : ℕ) :
    (thresholds wc).2 = (if wc < 20 then 0 else if wc < 50 then 0 else 1) := by
  unfold thresholds
  split_ifs <;> first | rfl | omega

theorem inlineTh_ge_45 (wc : ℕ) :
    (45:ℚ) ≤ (if wc < 20 then (45 : ℚ) else if wc < 50 then 50
      else if wc < 100 then 55 else if wc < 200 then 58 else 60) := by
  split_ifs <;> norm_num

theorem inlineTh_lt_50 (wc : ℕ)
    (h : (if wc < 20 then (45 : ℚ) else if wc < 50 then 50
      else if wc < 100 then 55 else if wc < 200 then 58 else 60) < 50) : wc < 20 := by
  split_ifs at h with h1 h2 h3 h4
  · exact h1
  · norm_num at h
  · norm_num at h
  · norm_num at h
  · norm_num at h

theorem checkIf404Page_eq (test : String → String → Bool) (p : Page) :
    checkIf404Page test p =
      decisionLogic (confidenceOf test p)
        (thresholds (wordCount (bodyTextOf p))).1
        (thresholds (wordCount (bodyTextOf p))).2
        (hasExplicit404 p)
        (platformDetectedCalc (domainOf p) (indicatorsOf test p))
        (includes (domainOf p) "facebook.com")
        (wordCount (bodyTextOf p))
        ((indicatorsOf test p).length)
        ((totalOf test p).strong) := rfl

/-- C1: the final decision equals the claimed procedure: pick threshold and
strong-indicator requirement from the wordCount bracket, then apply the six
rules in order with the first satisfied rule winning; in particular, when a
platform rule fired but neither platform confidence bar is met, the later
rules can never fire either, so the nested code and the flat rule list
agree on every input. -/
theorem claim_C1 (test : String → String → Bool) (p : Page) :
    checkIf404Page test p =
      decideSpecC1 ((detection test p).confidence) (wordCount (bodyTextOf p))
        (hasExplicit404 p)
        (platformDetectedCalc (domainOf p) ((detection test p).indicators))
        (includes (domainOf p) "facebook.com")
        ((detection test p).indicators).length
        ((detection test p).strongIndicators) := by
  show checkIf404Page test p =
    decideSpecC1 (confidenceOf test p) (wordCount (bodyTextOf p)) (hasExplicit404 p)
      (platformDetectedCalc (domainOf p) (indicatorsOf test p))
      (includes (domainOf p) "facebook.com")
      ((indicatorsOf test p).length) ((totalOf test p).strong)
  have hreach : wordCount (bodyTextOf p) < 20 →
      platformDetectedCalc (domainOf p) (indicatorsOf test p) = true →
      55 ≤ confidenceOf test p :=
    fun h1 h2 => reach_55 test p h1 h2
  rw [checkIf404Page_eq]
  unfold decisionLogic decideSpecC1
  rw [thresholds_fst_eq, thresholds_snd_eq]
  set conf := confidenceOf test p with hconf
  set wc := wordCount (bodyTextOf p) with hwc
  set e := hasExplicit404 p with he
  set pd := platformDetectedCalc (domainOf p) (indicatorsOf test p) with hpdd
  set fb := includes (domainOf p) "facebook.com" with hfb
  set len := (indicatorsOf test p).length with hlen
  set str := (totalOf test p).strong with hstr
  by_cases h80 : (80:ℚ) ≤ conf
  · rw [if_pos h80, if_pos h80]
  · rw [if_neg h80, if_neg h80]
    by_cases h2 : e = true ∧ (40:ℚ) ≤ conf
    · rw [if_pos h2, if_pos h2]
    · rw [if_neg h2, if_neg h2]
      by_cases hpd : pd = true
      · rw [if_pos hpd]
        by_cases h3a : fb = true ∧ (35:ℚ) ≤ conf
        · rw [if_pos h3a,
            if_pos (show pd = true ∧ fb = true ∧ (35:ℚ) ≤ conf from ⟨hpd, h3a.1, h3a.2⟩)]
        · rw [if_neg h3a,
            if_neg (show ¬(pd = true ∧ fb = true ∧ (35:ℚ) ≤ conf) from
              fun hx => h3a ⟨hx.2.1, hx.2.2⟩)]
          by_cases h3b : (45:ℚ) ≤ conf
          · rw [if_pos h3b,
              if_pos (show pd = true ∧ (45:ℚ) ≤ conf from ⟨hpd, h3b⟩)]
          · rw [if_neg h3b,
              if_neg (show ¬(pd = true ∧ (45:ℚ) ≤ conf) from fun hx => h3b hx.2)]
            have hth := inlineTh_ge_45 wc
            have hc45 := not_le.mp h3b
            rw [if_neg ?r4, if_neg ?r5, decide_eq_false ?r6]
            case r4 =>
              rintro ⟨_, hx⟩
              linarith
            case r6 =>
              rintro ⟨hx, _⟩
              linarith
            case r5 =>
              rintro ⟨hlen2, hx⟩
              have hlt50 : (if wc < 20 then (45 : ℚ) else if wc < 50 then 50
                  else if wc < 100 then 55 else if wc < 200 then 58 else 60) < 50 := by
                linarith
              have hwc20 := inlineTh_lt_50 wc hlt50
              have h55 := hreach hwc20 hpd
              linarith
      · rw [if_neg hpd,
          if_neg (show ¬(pd = true ∧ fb = true ∧ (35:ℚ) ≤ conf) from fun hx => hpd hx.1),
          if_neg (show ¬(pd = true ∧ (45:ℚ) ≤ conf) from fun hx => hpd hx.1)]

end FourOhFour
